import Mathlib

/-!
Shallow embedding of the address-parsing core of `amap_address_parser.py`
(class `AmapAddressParser`) together with its single caller
`address_completer.py` (`complete_address`).

Modelling conventions:
* Text is `List Char` (Python `str`).  JSON object keys and request paths,
  which are always string literals in the source, are Lean `String`.
* Decoded JSON values (`json.loads` results, and the component dictionaries
  the parser builds, which Python represents as `dict`) are the `Json`
  inductive below.
* The network boundary is an oracle `path → params → Except NetErr Json`:
  it stands for "open HTTPS connection, GET path?urlencode(params), read the
  body and `json.loads` it".  `NetErr.jsonDecode` is a `json.JSONDecodeError`
  raised by `json.loads`; `NetErr.other msg` is any other transport
  exception with `str(e) = msg`.
* Wall-clock reads are explicit: `Env.today` is `datetime.now().strftime('%Y-%m-%d')`
  and `Env.now` is `time.time()` (the actual sleeping in `_rate_limit` has no
  observable effect on the stored state beyond the timestamp written).
* Python exceptions are values of `PyExc`; a statement `try: body except: h`
  becomes a match on the `Except PyExc` result of the body, with the mutated
  object state threaded through in both cases (Python attribute mutations
  survive an exception).
-/

namespace Amap

/-- Decoded JSON values / Python dictionaries as built by the parser. -/
inductive Json where
  | null : Json
  | str : List Char → Json
  | obj : List (String × Json) → Json
  | arr : List Json → Json
deriving Repr

mutual

/-- Structural decidable equality for `Json` (Python `==` on decoded JSON
values; the source only ever compares such a value against a string, see
`pyEqStr`, so order-sensitivity of the `obj` case is never exercised). -/
def Json.decEq : (a b : Json) → Decidable (a = b)
  | .null, .null => .isTrue rfl
  | .null, .str _ => .isFalse fun h => Json.noConfusion h
  | .null, .obj _ => .isFalse fun h => Json.noConfusion h
  | .null, .arr _ => .isFalse fun h => Json.noConfusion h
  | .str _, .null => .isFalse fun h => Json.noConfusion h
  | .str _, .obj _ => .isFalse fun h => Json.noConfusion h
  | .str _, .arr _ => .isFalse fun h => Json.noConfusion h
  | .obj _, .null => .isFalse fun h => Json.noConfusion h
  | .obj _, .str _ => .isFalse fun h => Json.noConfusion h
  | .obj _, .arr _ => .isFalse fun h => Json.noConfusion h
  | .arr _, .null => .isFalse fun h => Json.noConfusion h
  | .arr _, .str _ => .isFalse fun h => Json.noConfusion h
  | .arr _, .obj _ => .isFalse fun h => Json.noConfusion h
  | .str a, .str b =>
      if h : a = b then .isTrue (by rw [h]) else .isFalse fun hh => h (by cases hh; rfl)
  | .obj a, .obj b =>
      match Json.decEqObjList a b with
      | .isTrue h => .isTrue (by rw [h])
      | .isFalse h => .isFalse fun hh => h (by cases hh; rfl)
  | .arr a, .arr b =>
      match Json.decEqArrList a b with
      | .isTrue h => .isTrue (by rw [h])
      | .isFalse h => .isFalse fun hh => h (by cases hh; rfl)

def Json.decEqObjList : (a b : List (String × Json)) → Decidable (a = b)
  | [], [] => .isTrue rfl
  | [], _ :: _ => .isFalse fun h => List.noConfusion h
  | _ :: _, [] => .isFalse fun h => List.noConfusion h
  | (k₁, v₁) :: r₁, (k₂, v₂) :: r₂ =>
      if hk : k₁ = k₂ then
        match Json.decEq v₁ v₂, Json.decEqObjList r₁ r₂ with
        | .isTrue hv, .isTrue hr => .isTrue (by rw [hk, hv, hr])
        | .isFalse hv, _ => .isFalse fun h => hv (by cases h; rfl)
        | _, .isFalse hr => .isFalse fun h => hr (by cases h; rfl)
      else .isFalse fun h => hk (by cases h; rfl)

def Json.decEqArrList : (a b : List Json) → Decidable (a = b)
  | [], [] => .isTrue rfl
  | [], _ :: _ => .isFalse fun h => List.noConfusion h
  | _ :: _, [] => .isFalse fun h => List.noConfusion h
  | x :: xs, y :: ys =>
      match Json.decEq x y, Json.decEqArrList xs ys with
      | .isTrue hv, .isTrue hr => .isTrue (by rw [hv, hr])
      | .isFalse hv, _ => .isFalse fun h => hv (by cases h; rfl)
      | _, .isFalse hr => .isFalse fun h => hr (by cases h; rfl)

end

instance : DecidableEq Json := Json.decEq

/-- Python truthiness of a decoded JSON value: `None`, `''`, `{}`, `[]` are
falsy, everything else truthy. -/
def truthy : Json → Bool
  | .null => false
  | .str s => !s.isEmpty
  | .obj l => !l.isEmpty
  | .arr l => !l.isEmpty

/-- Python `value == "lit"` where `value` is a decoded JSON value: true only
when it is that exact string. -/
def pyEqStr (j : Json) (s : List Char) : Bool :=
  match j with
  | .str t => t == s
  | _ => false

/-- Python exceptions reachable in the embedded code. -/
inductive PyExc where
  | amap : Json → Json → PyExc    -- AmapError(code, message)
  | typeError : PyExc             -- e.g. `None in some_string`
  | attributeError : PyExc        -- `.get` on a non-dict
  | keyError : PyExc              -- `d[k]` with k absent
  | indexError : PyExc            -- `l[0]` on an empty list
  | jsonDecodeError : PyExc       -- json.JSONDecodeError
  | transport : List Char → PyExc -- other transport exception e, payload str(e)
deriving Repr, DecidableEq

/-- Transport/decode failures produced at the network boundary. -/
inductive NetErr where
  | jsonDecode : NetErr           -- json.JSONDecodeError from json.loads
  | other : List Char → NetErr    -- any other exception e, payload str(e)
deriving Repr, DecidableEq

/-- Python `repr` of a decoded JSON value, used (via `str`) only when an
f-string interpolates a non-string value; the source never exercises this on
nested values in any scenario a claim touches, and string escaping inside
`repr` is not modelled. -/
def pyRepr : Json → List Char
  | .null => "None".data
  | .str s => '\'' :: s ++ ['\'']
  | .obj l =>
      let rec fields : List (String × Json) → List Char
        | [] => []
        | [(k, v)] => '\'' :: k.data ++ "\': ".data ++ pyRepr v
        | (k, v) :: r => '\'' :: k.data ++ "\': ".data ++ pyRepr v ++ ", ".data ++ fields r
      Char.ofNat 123 :: fields l ++ [Char.ofNat 125]
  | .arr l =>
      let rec elems : List Json → List Char
        | [] => []
        | [v] => pyRepr v
        | v :: r => pyRepr v ++ ", ".data ++ elems r
      '[' :: elems l ++ [']']

/-- Python `str()` of a decoded JSON value (f-string interpolation). -/
def pyStr : Json → List Char
  | .str s => s
  | j => pyRepr j

/-- `str(e)` for an exception value.  `AmapError.__init__` passes
`f"错误码 {code}: {message}"` to `Exception.__init__`, so that is its
`str`.  For the built-in exception types the exact CPython message text
(e.g. `"'list' object has no attribute 'get'"`) is abstracted to the type
name; those exceptions only arise from ill-shaped provider responses and
no claim inspects the resulting text. -/
def pyExcStr : PyExc → List Char
  | .amap code msg => "错误码 ".data ++ pyStr code ++ ": ".data ++ pyStr msg
  | .typeError => "TypeError".data
  | .attributeError => "AttributeError".data
  | .keyError => "KeyError".data
  | .indexError => "IndexError".data
  | .jsonDecodeError => "JSONDecodeError".data
  | .transport m => m

/-- `d.get(k)` (default `None`) for a decoded value known to be a dict;
on a non-dict receiver Python raises `AttributeError`. -/
def pyGet (j : Json) (k : String) : Except PyExc Json :=
  match j with
  | .obj l => .ok ((l.lookup k).getD .null)
  | _ => .error .attributeError

/-- `d.get(k, default)`. -/
def pyGetD (j : Json) (k : String) (d : Json) : Except PyExc Json :=
  match j with
  | .obj l => .ok ((l.lookup k).getD d)
  | _ => .error .attributeError

/-- `d[k]` string-key subscription. -/
def pyItem (j : Json) (k : String) : Except PyExc Json :=
  match j with
  | .obj l => match l.lookup k with
    | some v => .ok v
    | none => .error .keyError
  | .null => .error .typeError
  | .str _ => .error .typeError
  | .arr _ => .error .typeError

/-- `v[0]`: first element of a list, first character of a string. -/
def pyItem0 (j : Json) : Except PyExc Json :=
  match j with
  | .arr (x :: _) => .ok x
  | .arr [] => .error .indexError
  | .str (c :: _) => .ok (.str [c])
  | .str [] => .error .indexError
  | .obj _ => .error .keyError   -- dict[0] with no integer keys
  | .null => .error .typeError

/-- `for x in v`: iterating a decoded value (list → elements, string →
one-character strings, dict → keys, None → TypeError). -/
def pyIter (j : Json) : Except PyExc (List Json) :=
  match j with
  | .arr l => .ok l
  | .str s => .ok (s.map fun c => .str [c])
  | .obj l => .ok (l.map fun kv => .str kv.1.data)
  | .null => .error .typeError

/-- Contiguous-substring test, Python `needle in haystack` on strings. -/
def isSubstring (needle haystack : List Char) : Bool :=
  match haystack with
  | [] => needle.isEmpty
  | _ :: rest => needle.isPrefixOf haystack || isSubstring needle rest

/-- Python `x in s` where `s` is a string and `x` a decoded JSON value:
only a string left operand is allowed, anything else raises `TypeError`. -/
def pyInStr (x : Json) (s : List Char) : Except PyExc Bool :=
  match x with
  | .str t => .ok (isSubstring t s)
  | _ => .error .typeError

/-- Python `str.replace(old, new)` — replaces every occurrence,
left to right.  (`new` is always `''` in the source.)  Fueled by the
length of the string; each step consumes at least one character. -/
def pyReplaceAll (old : List Char) : Nat → List Char → List Char
  | 0, s => s
  | _ + 1, [] => []
  | fuel + 1, s@(c :: rest) =>
      if old.isEmpty then s
      else if old.isPrefixOf s then pyReplaceAll old fuel (s.drop old.length)
      else c :: pyReplaceAll old fuel rest

/-- `s.replace(old, '')`. -/
def pyRemoveAll (s old : List Char) : List Char :=
  pyReplaceAll old s.length s

/-- Whitespace characters matched by Python's `\s` (and used by `str.split()`
and `str.strip()`) restricted to the Basic Multilingual Plane characters that
can occur here. -/
def pyWhitespace : List Char :=
  [' ', '\t', '\n', '\r', Char.ofNat 0x0b, Char.ofNat 0x0c,
   Char.ofNat 0x1c, Char.ofNat 0x1d, Char.ofNat 0x1e, Char.ofNat 0x1f,
   Char.ofNat 0x85, Char.ofNat 0xa0, Char.ofNat 0x1680,
   Char.ofNat 0x2000, Char.ofNat 0x2001, Char.ofNat 0x2002, Char.ofNat 0x2003,
   Char.ofNat 0x2004, Char.ofNat 0x2005, Char.ofNat 0x2006, Char.ofNat 0x2007,
   Char.ofNat 0x2008, Char.ofNat 0x2009, Char.ofNat 0x200a,
   Char.ofNat 0x2028, Char.ofNat 0x2029, Char.ofNat 0x202f,
   Char.ofNat 0x205f, Char.ofNat 0x3000]

def isPyWs (c : Char) : Bool := pyWhitespace.contains c

/-- The character class `[一-龥]` used throughout the source. -/
def isCJK (c : Char) : Bool := 0x4e00 ≤ c.toNat && c.toNat ≤ 0x9fa5

def isAsciiDigit (c : Char) : Bool := '0' ≤ c && c ≤ '9'

def isAsciiLetter (c : Char) : Bool :=
  ('A' ≤ c && c ≤ 'Z') || ('a' ≤ c && c ≤ 'z')

/-- `str.strip()`. -/
def pyStrip (s : List Char) : List Char :=
  ((s.dropWhile isPyWs).reverse.dropWhile isPyWs).reverse

/-- `str.split()` — split on whitespace runs, dropping empty pieces. -/
def pySplit : List Char → List (List Char)
  | [] => []
  | c :: rest =>
      if isPyWs c then pySplit rest
      else
        match pySplit rest with
        | [] => [[c]]
        | w :: ws =>
            match rest with
            | [] => [[c]]
            | d :: _ => if isPyWs d then [c] :: w :: ws else (c :: w) :: ws

/-- `' '.join(parts)`. -/
def joinSpace : List (List Char) → List Char
  | [] => []
  | [w] => w
  | w :: ws => w ++ ' ' :: joinSpace ws

end Amap

namespace Amap

/-! ### Regex machinery

Each regular expression the source applies is hand-compiled to a matcher.
Substitutions follow `re.sub` semantics: scan left to right, replace the
leftmost match, continue scanning after the replaced span (non-overlapping).
Searches follow `re.search`: try each start position left to right, at each
position explore the pattern's backtracking alternatives in order.
-/

/-- First `some` produced by `f` over a list, in order (backtracking order
of regex alternatives). -/
def firstSome {α β : Type} (f : α → Option β) : List α → Option β
  | [] => none
  | x :: xs => match f x with | some r => some r | none => firstSome f xs

/-- `[m, m-1, ..., 1]`: the lengths a greedy `+`/`{k,}` quantifier tries. -/
def descRange : Nat → List Nat
  | 0 => []
  | n + 1 => (n + 1) :: descRange n

/-- Generic `re.sub` scanner.  `m s` returns `(replacement, remainder)` when
a match starts at the head of `s`.  Every matcher used here consumes at
least one character, so `fuel = s.length` never runs out. -/
def scanSub (m : List Char → Option (List Char × List Char)) : Nat → List Char → List Char
  | 0, s => s
  | _ + 1, [] => []
  | fuel + 1, c :: rest =>
      match m (c :: rest) with
      | some (rep, rem) => rep ++ scanSub m fuel rem
      | none => c :: scanSub m fuel rest

/-- Generic `re.search` scanner: first start position with a match. -/
def searchFirst {α : Type} (m : List Char → Option α) : List Char → Option α
  | [] => none
  | c :: rest =>
      match m (c :: rest) with
      | some r => some r
      | none => searchFirst m rest

/-- `re.search` scanner for patterns with a one-character lookbehind:
the matcher also receives the character before the current position. -/
def searchFirstPrev {α : Type} (m : Option Char → List Char → Option α) :
    Option Char → List Char → Option α
  | _, [] => none
  | prev, c :: rest =>
      match m prev (c :: rest) with
      | some r => some r
      | none => searchFirstPrev m (some c) rest

/-- Replace every maximal run of characters satisfying `p` by `rep`
(`re.sub(r'[class]+', rep, s)`); `inRun` tracks whether the previous
character was part of a run. -/
def collapseRuns (p : Char → Bool) (rep : Char) : Bool → List Char → List Char
  | _, [] => []
  | inRun, c :: rest =>
      if p c then
        if inRun then collapseRuns p rep true rest
        else rep :: collapseRuns p rep true rest
      else c :: collapseRuns p rep false rest

/-- Characters replaced by `re.sub(r'[\r\n\t　\xa0]+', ' ', ...)`. -/
def wsSpecialSet : List Char := ['\r', '\n', '\t', Char.ofNat 0x3000, Char.ofNat 0xa0]

/-- Step (line 251): collapse newline/tab/ideographic-space/no-break-space
runs to a single ASCII space. -/
def subWsSpecial (s : List Char) : List Char :=
  collapseRuns (wsSpecialSet.contains ·) ' ' false s

/-- Step (line 265): `re.sub(r'\s+', ' ', ...)`. -/
def subSpaces (s : List Char) : List Char :=
  collapseRuns isPyWs ' ' false s

/-- The `[省市区县]` class. -/
def adminSet : List Char := ['省', '市', '区', '县']

/-- Step (line 259): `re.sub(r'([省市区县])\1+', r'\1', ...)` — collapse a run
of the same administrative suffix character to one occurrence.  `last` is the
previous character when it was a just-emitted member of the class. -/
def subAdminDup : Option Char → List Char → List Char
  | _, [] => []
  | last, c :: rest =>
      if adminSet.contains c then
        if last == some c then subAdminDup (some c) rest
        else c :: subAdminDup (some c) rest
      else c :: subAdminDup none rest

/-- Consume a nonempty run of `c` (a greedy `c+` whose follower is a
different literal, hence deterministic); `none` when `s` does not start
with `c`. -/
def eatRun (c : Char) : List Char → Option (List Char)
  | d :: rest => if d == c then some (rest.dropWhile (· == c)) else none
  | [] => none

/-- Consume an optional literal `c` (greedy `(?:c)?` whose follower is a
different literal). -/
def eatOpt (c : Char) (s : List Char) : Option Char × List Char :=
  match s with
  | d :: rest => if d == c then (some c, rest) else (none, s)
  | [] => (none, s)

/-- Matcher for the municipality-duplicate pattern
`f'{region}+(?:市)?{region}+(?:市)?'` where `region = [c₁, c₂]`
(e.g. 北京): `c₁ c₂+ 市? c₁ c₂+ 市?`.  For all four municipalities
`c₂ ∉ {c₁, 市}`, so the greedy runs and optional 市 are deterministic. -/
def muniMatchHere (c₁ c₂ : Char) : List Char → Option (List Char × List Char)
  | c :: rest =>
      if c == c₁ then
        (eatRun c₂ rest).bind fun r₁ =>
        let r₂ := (eatOpt '市' r₁).2
        match r₂ with
        | d :: rest₂ =>
            if d == c₁ then
              (eatRun c₂ rest₂).map fun r₃ => ([c₁, c₂, '市'], (eatOpt '市' r₃).2)
            else none
        | [] => none
      else none
  | [] => none

/-- Steps (lines 254-256): collapse duplicated municipality mentions. -/
def subMuni (c₁ c₂ : Char) (s : List Char) : List Char :=
  scanSub (muniMatchHere c₁ c₂) s.length s

/-- Maximal number of copies of `g` prefixing `s` (greedy `\1+`). -/
def countCopies (g : List Char) : Nat → List Char → Nat
  | 0, _ => 0
  | fuel + 1, s =>
      if !g.isEmpty && g.isPrefixOf s then 1 + countCopies g fuel (s.drop g.length)
      else 0

/-- Alternatives of `(?:街道|路|街|道)` in the order the engine tries them. -/
def roadSuffixes : List (List Char) := [['街', '道'], ['路'], ['街'], ['道']]

/-- Matcher for `([一-龥]+(?:街道|路|街|道))\1+` at the current
position: the group is `n` CJK characters plus a suffix alternative,
with `n` greedy (largest first) and alternatives in listed order, and the
group must be followed by at least one further copy of itself. -/
def roadDupMatchHere (s : List Char) : Option (List Char × List Char) :=
  let m := (s.takeWhile isCJK).length
  firstSome
    (fun n => firstSome
      (fun suf =>
        if suf.isPrefixOf (s.drop n) then
          let g := s.take (n + suf.length)
          let rest := s.drop (n + suf.length)
          let j := countCopies g rest.length rest
          if 1 ≤ j then some (g, rest.drop (j * g.length)) else none
        else none)
      roadSuffixes)
    (descRange m)

/-- Step (line 262): collapse a duplicated road-name token. -/
def subRoadDup (s : List Char) : List Char :=
  scanSub roadDupMatchHere s.length s

/-- Matcher for `([省市区县])\s+(?=[一-龥])` at the current position:
the whitespace run is consumed, the following CJK character is lookahead
only. -/
def adminSpaceMatchHere (s : List Char) : Option (List Char × List Char) :=
  match s with
  | c :: rest =>
      if adminSet.contains c then
        let wsn := (rest.takeWhile isPyWs).length
        if 1 ≤ wsn then
          match rest.drop wsn with
          | d :: _ => if isCJK d then some ([c], rest.drop wsn) else none
          | [] => none
        else none
      else none
  | [] => none

/-- Step (line 271): remove the space between an administrative suffix and a
following CJK character. -/
def subAdminSpace (s : List Char) : List Char :=
  scanSub adminSpaceMatchHere s.length s

/-- Token deduplication preserving first-seen order (lines 274-280). -/
def dedupTokens (seen : List (List Char)) : List (List Char) → List (List Char)
  | [] => []
  | w :: ws =>
      if seen.contains w then dedupTokens seen ws
      else w :: dedupTokens (w :: seen) ws

/-- The value `_clean_address_string` RETURNS (line 301):
`' '.join(cleaned_parts)`.  `cleaned_parts` is computed (lines 274-280)
before the county-handling loop (lines 283-299), and that loop only
reassigns the local variable `address`, so the returned string never
reflects it; the loop's cache/network side effects are modelled separately
in `clean_address_string`. -/
def cleanCore (address : List Char) : List Char :=
  let a := subWsSpecial address
  let a := subMuni '北' '京' a
  let a := subMuni '上' '海' a
  let a := subMuni '天' '津' a
  let a := subMuni '重' '庆' a
  let a := subAdminDup none a
  let a := subRoadDup a
  let a := subSpaces a
  let a := pyStrip a
  let a := subAdminSpace a
  joinSpace (dedupTokens [] (pySplit a))

end Amap

namespace Amap

/-! ### Gateway state, environment and the effect monad -/

/-- The mutable attributes of an `AmapAddressParser` instance that the
embedded methods read or write.  `__init__` sets `key = ""`,
`last_request_time = 0`, `request_count = 0`, `_quota_counter = {}`.
`_quota_date` is not set in `__init__`; `_check_quota` tests it with
`hasattr`, modelled as `none`.  `_district_cache` (the by-name cache of
`_get_district_by_name`) is lazily created on first use via `hasattr`,
which is observationally the same as starting empty.  (The GUI may assign
`parser.key`, hence `key` is state rather than a constant.) -/
structure PState where
  key : List Char
  last_request_time : Nat
  request_count : Nat
  quota_date : Option String
  quota_counter : List (String × Nat)
  district_name_cache : List (List Char × Json)
deriving Repr, DecidableEq

/-- The freshly constructed parser. -/
def initState : PState :=
  { key := [], last_request_time := 0, request_count := 0,
    quota_date := none, quota_counter := [], district_name_cache := [] }

/-- The ambient world: the network boundary plus the two clock reads. -/
structure Env where
  oracle : String → List (String × Json) → Except NetErr Json
  today : String
  now : Nat

/-- The effect monad of the embedding: state threading plus Python
exceptions.  Attribute mutations performed before an exception is raised
survive it, hence the state is returned in both cases. -/
def PyM (α : Type) : Type := PState → Except PyExc α × PState

instance : Monad PyM where
  pure a := fun s => (.ok a, s)
  bind m f := fun s =>
    match m s with
    | (.ok a, s') => f a s'
    | (.error e, s') => (.error e, s')

def PyM.raise {α : Type} (e : PyExc) : PyM α := fun s => (.error e, s)

def PyM.lift {α : Type} (x : Except PyExc α) : PyM α := fun s => (x, s)

def PyM.get : PyM PState := fun s => (.ok s, s)

def PyM.modifyS (f : PState → PState) : PyM Unit := fun s => (.ok (), f s)

/-- `try: m except ...: h` — the handler sees the exception and the state
as mutated so far. -/
def PyM.catch {α : Type} (m : PyM α) (h : PyExc → PyM α) : PyM α := fun s =>
  match m s with
  | (.ok a, s') => (.ok a, s')
  | (.error e, s') => h e s'

/-- Replace the value under `k`, keeping its position, or append
(Python `d[k] = v` on a dict). -/
def setAssoc {α β : Type} [BEq α] : List (α × β) → α → β → List (α × β)
  | [], k, v => [(k, v)]
  | (k', v') :: rest, k, v =>
      if k' == k then (k, v) :: rest else (k', v') :: setAssoc rest k v

/-- `d.update(other)`: assign `other`'s items in order. -/
def dictUpdate (l : List (String × Json)) : List (String × Json) → List (String × Json)
  | [] => l
  | (k, v) :: rest => dictUpdate (setAssoc l k v) rest

/-- `ERROR_MESSAGES` (lines 18-31). -/
def ERROR_MESSAGES : List (List Char × List Char) :=
  [("10001".data, "API密钥不正确或已过期".data),
   ("10002".data, "没有权限使用该服务".data),
   ("10003".data, "访问量超出日限额".data),
   ("10004".data, "访问过于频繁".data),
   ("10005".data, "IP白名单错误".data),
   ("10009".data, "请求key与绑定平台不符".data),
   ("10010".data, "IP访问超限".data),
   ("20000".data, "请求参数非法".data),
   ("20001".data, "缺少必填参数".data),
   ("20011".data, "查询点在海外，但无海外地图权限".data),
   ("20012".data, "查询信息存在非法内容".data),
   ("30000".data, "服务响应失败，请检查参数".data)]

/-- `dict.get(key, default)` where the key is an arbitrary decoded value
and the table keys are strings: a non-string key selects the default. -/
def tblGet (tbl : List (List Char × List Char)) (k : Json) (d : List Char) : List Char :=
  match k with
  | .str s => (List.lookup s tbl).getD d
  | _ => d

/-- `_check_response` (lines 109-120): raise on an empty/falsy result or a
non-success status, with the message from `ERROR_MESSAGES` when the
`infocode` is known, the provider's own `info` otherwise. -/
def check_response (result : Json) : Except PyExc Unit := do
  if !truthy result then
    throw (.amap (.str "30000".data) (.str "服务响应为空".data))
  let status ← pyGet result "status"
  let info ← pyGet result "info"
  let infocode ← pyGet result "infocode"
  if !pyEqStr status "1".data then
    let error_msg : Json :=
      match infocode with
      | .str s =>
          match List.lookup s ERROR_MESSAGES with
          | some m => .str m
          | none => info
      | _ => info
    throw (.amap infocode error_msg)
  return ()

/-- `_rate_limit` (lines 122-133): the sleep is real time with no effect on
stored state; afterwards `last_request_time = time.time()` and the request
counter is incremented. -/
def rate_limit (env : Env) : PyM Unit :=
  PyM.modifyS fun s =>
    { s with last_request_time := env.now, request_count := s.request_count + 1 }

/-- `_check_quota` (lines 942-965): reset the per-path counters when the
stored date is absent or differs from today, pick the daily limit by path
prefix (100 for `/v3/place...`, 5000 otherwise), charge the call, and
report whether the new count is within the limit. -/
def check_quota (env : Env) (path : String) : PyM Bool := fun s =>
  let s :=
    if s.quota_date == some env.today then s
    else { s with quota_date := some env.today, quota_counter := [] }
  -- `path.startswith('/v3/place')`
  let quota : Nat := if "/v3/place".data.isPrefixOf path.data then 100 else 5000
  let cnt := ((s.quota_counter.lookup path).getD 0) + 1
  let s := { s with quota_counter := setAssoc s.quota_counter path cnt }
  (.ok (cnt ≤ quota), s)

/-- `_make_request` (lines 652-677).  Note that the `AmapError`s the body
itself raises (quota exhaustion, and every status error from
`_check_response`) are caught by the body's own `except Exception` clause
and re-raised as `AmapError("30000", f"请求失败: {str(e)}")`; only the
`json.JSONDecodeError` clause produces the distinct decode error. -/
def make_request (env : Env) (path : String) (params : List (String × Json)) : PyM Json :=
  PyM.catch
    (do
      let ok ← check_quota env path
      if !ok then
        PyM.raise (.amap (.str "10003".data) (.str "超出日配额限制".data))
      else do
        rate_limit env
        match env.oracle path params with
        | .error .jsonDecode => PyM.raise .jsonDecodeError
        | .error (.other m) => PyM.raise (.transport m)
        | .ok result => do
            PyM.lift (check_response result)
            pure result)
    (fun e =>
      match e with
      | .jsonDecodeError =>
          PyM.raise (.amap (.str "30000".data) (.str "响应数据格式错误".data))
      | e =>
          PyM.raise (.amap (.str "30000".data) (.str ("请求失败: ".data ++ pyExcStr e))))

end Amap

namespace Amap

/-! ### Extraction pattern matchers -/

/-- `1[3-9]\d{9}` matches at the head of `s`. -/
def isPhoneAt (s : List Char) : Bool :=
  match s with
  | c₁ :: c₂ :: rest =>
      c₁ == '1' && '3' ≤ c₂ && c₂ ≤ '9' &&
      (rest.take 9).length == 9 && (rest.take 9).all isAsciiDigit
  | _ => false

/-- `re.search(r'1[3-9]\d{9}', s)`: the first 11-character mobile number. -/
def phoneSearch : List Char → Option (List Char) :=
  searchFirst fun t => if isPhoneAt t then some (t.take 11) else none

/-- The honorific alternatives `(?:先生|女士|小姐)` in engine order. -/
def honorifics : List (List Char) := [['先', '生'], ['女', '士'], ['小', '姐']]

/-- The name pattern's lookahead `(?=\s|$|[，,。.]|1[3-9]\d{9})`. -/
def nameLookaheadOk (s : List Char) : Bool :=
  match s with
  | [] => true
  | c :: _ => isPyWs c || c == '，' || c == ',' || c == '。' || c == '.' || isPhoneAt s

/-- After `n` CJK characters of branch 1, try the optional honorific
greedily (each alternative, then empty), then the lookahead. -/
def nameTryHonorific (s : List Char) (n : Nat) : Option (List Char) :=
  let after := s.drop n
  match firstSome
      (fun h => if h.isPrefixOf after && nameLookaheadOk (after.drop 2)
                then some (s.take n ++ h) else none)
      honorifics with
  | some r => some r
  | none => if nameLookaheadOk after then some (s.take n) else none

/-- Branch `[一-龥]{2,3}(?:先生|女士|小姐)?` of the name pattern at the
current position (greedy: 3 CJK characters before 2). -/
def nameBranch1 (s : List Char) : Option (List Char) :=
  let run := min ((s.takeWhile isCJK).length) 3
  firstSome (fun n => if n ≤ run then nameTryHonorific s n else none) [3, 2]

/-- Branch `[一-龥]{1}(?:先生|女士|小姐)` (honorific required). -/
def nameBranch2 (s : List Char) : Option (List Char) :=
  match s with
  | c :: rest =>
      if isCJK c then
        firstSome
          (fun h => if h.isPrefixOf rest && nameLookaheadOk (rest.drop 2)
                    then some (c :: h) else none)
          honorifics
      else none
  | [] => none

/-- The full name pattern (line 391) at the current position. -/
def nameMatchHere (s : List Char) : Option (List Char) :=
  match nameBranch1 s with
  | some r => some r
  | none => nameBranch2 s

def nameSearch : List Char → Option (List Char) := searchFirst nameMatchHere

/-- `\d+单元` at the current position (the greedy digit run must be
followed directly by 单元). -/
def unitMatchHere (s : List Char) : Option (List Char) :=
  let d := (s.takeWhile isAsciiDigit).length
  if 1 ≤ d && ['单', '元'].isPrefixOf (s.drop d) then some (s.take d ++ ['单', '元'])
  else none

def unitSearch : List Char → Option (List Char) := searchFirst unitMatchHere

/-- Lookahead `(?=室|$)` of the room patterns in `_extract_building_info`
(the variant in `_extract_address_components` also accepts 房). -/
def roomLookahead (hasFang : Bool) (s : List Char) : Bool :=
  match s with
  | [] => true
  | c :: _ => c == '室' || (hasFang && c == '房')

/-- `(?<!\d)\d{2,4}(?=室|$)` at the current position. -/
def roomP1Here (hasFang : Bool) (prev : Option Char) (s : List Char) : Option (List Char) :=
  if (prev.map isAsciiDigit).getD false then none
  else
    let run := (s.takeWhile isAsciiDigit).length
    firstSome
      (fun k => if k ≤ run && roomLookahead hasFang (s.drop k) then some (s.take k) else none)
      [4, 3, 2]

/-- `[A-Za-z]\d{2,4}(?=室|$)` at the current position. -/
def roomP2Here (hasFang : Bool) (s : List Char) : Option (List Char) :=
  match s with
  | c :: rest =>
      if isAsciiLetter c then
        let run := (rest.takeWhile isAsciiDigit).length
        firstSome
          (fun k => if k ≤ run && roomLookahead hasFang (rest.drop k)
                    then some (c :: rest.take k) else none)
          [4, 3, 2]
      else none
  | [] => none

/-- `(?<=-)\d{2,4}(?=室|$)` at the current position. -/
def roomP3Here (hasFang : Bool) (prev : Option Char) (s : List Char) : Option (List Char) :=
  if prev == some '-' then
    let run := (s.takeWhile isAsciiDigit).length
    firstSome
      (fun k => if k ≤ run && roomLookahead hasFang (s.drop k) then some (s.take k) else none)
      [4, 3, 2]
  else none

/-- The room extraction of `_extract_building_info` (lines 630-643): the
three patterns tried in order, first pattern with a match anywhere wins. -/
def roomSearch3 (s : List Char) : Option (List Char) :=
  match searchFirstPrev (roomP1Here false) none s with
  | some m => some m
  | none =>
      match searchFirst (roomP2Here false) s with
      | some m => some m
      | none => searchFirstPrev (roomP3Here false) none s

/-- `re.sub(r'室\s*$', '', s)`: drop a final 室 (with trailing
whitespace). -/
def subTrailingShi (s : List Char) : List Char :=
  let r := s.reverse.dropWhile isPyWs
  match r with
  | c :: rest => if c == '室' then rest.reverse else s
  | [] => s

/-- `[一-龥]+<literal suffix>` at the current position (greedy CJK run,
longest first; the suffix characters are themselves CJK, hence inside the
run). -/
def cjkLitSuffixMatchHere (suf : List Char) (s : List Char) : Option (List Char) :=
  let m := (s.takeWhile isCJK).length
  firstSome
    (fun n => if suf.isPrefixOf (s.drop n) then some (s.take n ++ suf) else none)
    (descRange m)

/-- `[一-龥]{2,}[class](?!bad)` at the current position, for the street
patterns of `_extract_possible_street`. -/
def cjkClassMatchHere (cls : List Char) (neg : Option Char) (s : List Char) : Option (List Char) :=
  let m := (s.takeWhile isCJK).length
  firstSome
    (fun n =>
      if 2 ≤ n then
        match s.drop n with
        | c :: rest =>
            if cls.contains c &&
               (match neg with
                | some bad => !(rest.head? == some bad)
                | none => true)
            then some (s.take (n + 1)) else none
        | [] => none
      else none)
    (descRange m)

/-- `([临|蒲|永|洪|清]县)` at the current position ('|' is literally part
of the character class in the source). -/
def countyAMatchHere (s : List Char) : Option (List Char) :=
  match s with
  | c :: d :: _ =>
      if ['临', '|', '蒲', '永', '洪', '清'].contains c && d == '县' then some [c, d]
      else none
  | _ => none

/-- `([一-龥]{1,3}[县])` at the current position (greedy 3-2-1). -/
def countyBMatchHere (s : List Char) : Option (List Char) :=
  let m := min ((s.takeWhile isCJK).length) 3
  firstSome
    (fun n =>
      match s.drop n with
      | c :: _ => if c == '县' then some (s.take (n + 1)) else none
      | [] => none)
    (descRange m)

/-- `re.finditer`: the non-overlapping matches left to right, with their
start offsets in the scanned string. -/
def finditer (m : List Char → Option (List Char)) : Nat → Nat → List Char → List (Nat × List Char)
  | 0, _, _ => []
  | _ + 1, _, [] => []
  | fuel + 1, pos, c :: rest =>
      match m (c :: rest) with
      | some g => (pos, g) :: finditer m fuel (pos + g.length) ((c :: rest).drop g.length)
      | none => finditer m fuel (pos + 1) rest

end Amap

namespace Amap

/-! ### Contact and street extraction (pure) -/

/-- The address-keyword blacklist of `_extract_contact_info`
(lines 398-404). -/
def invalid_keywords : List (List Char) :=
  ["北京".data, "上海".data, "广州".data, "深圳".data,
   "省".data, "市".data, "区".data, "县".data, "镇".data,
   "街道".data, "路".data, "街".data, "道".data, "巷".data,
   "小区".data, "公寓".data, "家园".data, "花园".data,
   "广场".data, "大厦".data, "大街".data, "号院".data]

/-- The family-name whitelist (lines 409-410). -/
def common_surnames : List Char :=
  "王李张刘陈杨黄赵吴周徐孙马朱胡郭何高林郑尹钱梁".data

/-- `_extract_contact_info` (lines 379-414): returns `(name, phone)`. -/
def extract_contact_info (address : List Char) : List Char × List Char :=
  let phone := (phoneSearch address).getD []
  let address := if phone.isEmpty then address else pyRemoveAll address phone
  let name :=
    match nameSearch address with
    | some g =>
        let potential := pyStrip g
        if invalid_keywords.any (fun kw => isSubstring kw potential) then []
        else if common_surnames.any (fun su => potential.head? == some su) then potential
        else []
    | none => []
  (name, phone)

/-- The special-place patterns of `_extract_building_info`
(lines 592-604): `(suffix, should_keep_district)` with the CJK-run prefix
`[一-龥]+` implicit. -/
def special_keywords : List (List Char × Bool) :=
  [("大学".data, false), ("学院".data, false), ("中学".data, true),
   ("一中".data, true), ("二中".data, true), ("三中".data, true),
   ("小学".data, true), ("医院".data, true), ("政府".data, true),
   ("银行".data, false), ("广场".data, false)]

/-- The street patterns of `_extract_possible_street` (lines 440-449), in
order: `(character class, negative-lookahead character)`; each pattern is
`[一-龥]{2,}[class](?!neg)` — the trailing brackets in the source are
character classes, not literals. -/
def possible_street_patterns : List (List Char × Option Char) :=
  [(['街', '道'], none), (['路'], some '口'), (['街'], some '道'),
   (['大', '道'], none), (['广', '场'], none), (['开', '发', '区'], none),
   (['工', '业', '园'], none), (['科', '技', '园'], none)]

/-- `str.replace(old, new)` with a decoded-JSON `old`: Python raises
`TypeError` unless it is a string. -/
def pyReplaceJson (s : List Char) (v : Json) : Except PyExc (List Char) :=
  match v with
  | .str t => .ok (pyRemoveAll s t)
  | _ => .error .typeError

/-- `_extract_possible_street` (lines 431-457): remove the known regions,
then return the first street pattern's first match, or `''`. -/
def extract_possible_street (formatted : List Char) (regions : List Json) :
    Except PyExc (List Char) := do
  let remaining ← regions.foldlM
    (fun (acc : List Char) region =>
      if truthy region then pyReplaceJson acc region else pure acc)
    formatted
  match firstSome
      (fun p => searchFirst (cjkClassMatchHere p.1 p.2) remaining)
      possible_street_patterns with
  | some m => pure m
  | none => pure []

end Amap

namespace Amap

/-! ### Lookups built on the gateway, and the raw-connection lookups -/

/-- `_get_district_by_name` (lines 967-1000): cached by queried name;
on a successful district response caches and returns the four-field
`district_info`; on any failure (including every exception) returns `{}`.
The `hasattr`-style lazy creation of `_district_cache` is modelled by the
cache starting empty. -/
def get_district_by_name (env : Env) (name : List Char) : PyM Json :=
  PyM.catch
    (do
      let s ← PyM.get
      match s.district_name_cache.lookup name with
      | some v => pure v
      | none => do
          let result ← make_request env "/v3/config/district"
            [("keywords", .str name), ("subdistrict", .str "0".data), ("key", .str s.key)]
          let status ← PyM.lift (pyGet result "status")
          let districts ← PyM.lift (pyGet result "districts")
          if pyEqStr status "1".data && truthy districts then do
            let ds ← PyM.lift (pyItem result "districts")
            let district ← PyM.lift (pyItem0 ds)
            let p ← PyM.lift (pyGetD district "province" (.str []))
            let c ← PyM.lift (pyGetD district "cityname" (.str []))
            let d ← PyM.lift (pyGetD district "name" (.str []))
            let a ← PyM.lift (pyGetD district "adcode" (.str []))
            let info := Json.obj
              [("province", p), ("city", c), ("district", d), ("adcode", a)]
            PyM.modifyS fun s =>
              { s with district_name_cache := setAssoc s.district_name_cache name info }
            pure info
          else pure (Json.obj []))
    (fun _ => pure (Json.obj []))

/-- One iteration of the county loop body (lines 290-299): `start` is the
match's offset in the string `finditer` was called on, while the slice
`address[:start]` reads the current (possibly already prepended) value. -/
def county_step (env : Env) (start : Nat) (county : List Char) (addr : List Char) :
    PyM (List Char) := do
  if !(isSubstring ['省'] (addr.take start) || isSubstring ['市'] (addr.take start)) then
    let di ← get_district_by_name env county
    if truthy di then do
      let p ← PyM.lift (pyGetD di "province" (.str []))
      let c ← PyM.lift (pyGetD di "city" (.str []))
      pure (pyStr p ++ pyStr c ++ addr)
    else pure addr
  else pure addr

def county_loop (env : Env) : List (Nat × List Char) → List Char → PyM (List Char)
  | [], addr => pure addr
  | (st, co) :: rest, addr => do
      let addr' ← county_step env st co addr
      county_loop env rest addr'

/-- `_clean_address_string` (lines 248-301).  The returned string is
`' '.join(cleaned_parts)` (line 301), computed from the value of `address`
as of line 271 — i.e. `cleanCore`; the county loop (lines 283-299) only
reassigns the local `address` (and touches the cache/quota state through
`_get_district_by_name`), so its result never reaches the return value.
Each pattern's `finditer` iterates over the string value `address` held
when it was called, while reassigning `address` changes what later
`address[:start]` slices see. -/
def clean_address_string (env : Env) (address : List Char) : PyM (List Char) := do
  let a := subAdminSpace (pyStrip (subSpaces (subRoadDup (subAdminDup none
    (subMuni '重' '庆' (subMuni '天' '津' (subMuni '上' '海'
      (subMuni '北' '京' (subWsSpecial address)))))))))
  let a₁ ← county_loop env (finditer countyAMatchHere a.length 0 a) a
  let _a₂ ← county_loop env (finditer countyBMatchHere a₁.length 0 a₁) a₁
  pure (joinSpace (dedupTokens [] (pySplit a)))

/-- `_geo_code` (lines 201-222): a RAW `http.client` request — it does not
go through `_make_request`, so no quota check, no rate limiting and no
state update happen; every exception is swallowed into `{}`. -/
def geo_code (env : Env) (address : List Char) : PyM Json := fun s =>
  match env.oracle "/v3/geocode/geo"
    [("address", .str address), ("key", .str s.key), ("output", .str "json".data)] with
  | .ok j => (.ok j, s)
  | .error _ => (.ok (Json.obj []), s)

/-- `_regeo_code` (lines 224-246): likewise a raw request bypassing
`_make_request`. -/
def regeo_code (env : Env) (location : Json) : PyM Json := fun s =>
  match env.oracle "/v3/geocode/regeo"
    [("location", location), ("key", .str s.key),
     ("extensions", .str "all".data), ("output", .str "json".data)] with
  | .ok j => (.ok j, s)
  | .error _ => (.ok (Json.obj []), s)

/-- `_convert_coordinates` (lines 743-760): returns the converted
locations on success, the original string on a non-success status or any
exception. -/
def convert_coordinates (env : Env) (locations : List Char) (coordsys : List Char) :
    PyM Json :=
  PyM.catch
    (do
      let s ← PyM.get
      let result ← make_request env "/v3/assistant/coordinate/convert"
        [("locations", .str locations), ("coordsys", .str coordsys),
         ("key", .str s.key), ("output", .str "json".data)]
      let status ← PyM.lift (pyGet result "status")
      if pyEqStr status "1".data then
        PyM.lift (pyGetD result "locations" (.str []))
      else pure (.str locations))
    (fun _ => pure (.str locations))

end Amap

namespace Amap

/-! ### Weather lookup and building decomposition -/

/-- `WEATHER_DESC` (lines 34-71). -/
def WEATHER_DESC : List (List Char × List Char) :=
  [("晴".data, "晴朗无云".data),
   ("少云".data, "晴朗，有少量云朵".data),
   ("晴间多云".data, "晴天为主，间有云层".data),
   ("多云".data, "云量较多".data),
   ("阴".data, "云层厚密，天色阴沉".data),
   ("有风".data, "有明显的风".data),
   ("平静".data, "无风或微风".data),
   ("微风".data, "树叶轻微摇动".data),
   ("和风".data, "树枝摇动".data),
   ("清风".data, "吹动衣物".data),
   ("强风/劲风".data, "大树摇动".data),
   ("疾风".data, "行走困难".data),
   ("大风".data, "树枝折断".data),
   ("烈风".data, "房屋损坏".data),
   ("阵雨".data, "短时降雨".data),
   ("雷阵雨".data, "雷雨天气".data),
   ("小雨".data, "雨量较小".data),
   ("中雨".data, "明显降雨".data),
   ("大雨".data, "雨量较大".data),
   ("暴雨".data, "雨量很大".data),
   ("雨夹雪".data, "雨雪混合".data),
   ("小雪".data, "雪量较小".data),
   ("中雪".data, "明显降雪".data),
   ("大雪".data, "雪量较大".data),
   ("雾".data, "能见度较低".data),
   ("浓雾".data, "能见度很低".data),
   ("霾".data, "空气混浊".data),
   ("热".data, "气温偏高".data),
   ("冷".data, "气温偏低".data)]

/-- `WIND_POWER` (lines 74-85). -/
def WIND_POWER : List (List Char × List Char) :=
  [("≤3".data, "微风(小于12km/h)".data),
   ("4".data, "和风(13-19km/h)".data),
   ("5".data, "清风(20-29km/h)".data),
   ("6".data, "强风(30-39km/h)".data),
   ("7".data, "疾风(40-49km/h)".data),
   ("8".data, "大风(50-61km/h)".data),
   ("9".data, "烈风(62-74km/h)".data),
   ("10".data, "狂风(75-87km/h)".data),
   ("11".data, "暴风(88-102km/h)".data),
   ("12".data, "台风(≥103km/h)".data)]

/-- `WIND_DIRECTION` (lines 88-99). -/
def WIND_DIRECTION : List (List Char × List Char) :=
  [("无风向".data, "无明显风向".data),
   ("东北".data, "东北风".data),
   ("东".data, "东风".data),
   ("东南".data, "东南风".data),
   ("南".data, "南风".data),
   ("西南".data, "西南风".data),
   ("西".data, "西风".data),
   ("西北".data, "西北风".data),
   ("北".data, "北风".data),
   ("旋转不定".data, "风向不定".data)]

/-- The weather/wind sub-record shared by the live and forecast entries. -/
def weatherBlock (code : Json) : Json :=
  Json.obj [("code", code),
            ("desc", .str (tblGet WEATHER_DESC code "未知天气".data))]

def windBlock (direction power : Json) : Json :=
  Json.obj [("direction", .str (tblGet WIND_DIRECTION direction "未知风向".data)),
            ("power", .str (tblGet WIND_POWER power "未知风力".data))]

/-- One `forecast` entry built from a `cast` record (lines 800-825). -/
def buildCast (cast : Json) : Except PyExc Json := do
  let date ← pyGetD cast "date" (.str [])
  let week ← pyGetD cast "week" (.str [])
  let dw ← pyGetD cast "dayweather" (.str [])
  let dt ← pyGetD cast "daytemp" (.str [])
  let dwind ← pyGetD cast "daywind" (.str [])
  let dpow ← pyGetD cast "daypower" (.str [])
  let nw ← pyGetD cast "nightweather" (.str [])
  let nt ← pyGetD cast "nighttemp" (.str [])
  let nwind ← pyGetD cast "nightwind" (.str [])
  let npow ← pyGetD cast "nightpower" (.str [])
  pure (Json.obj
    [("date", date), ("week", week),
     ("day", Json.obj
       [("weather", weatherBlock dw),
        ("temperature", .str (pyStr dt ++ "℃".data)),
        ("wind", windBlock dwind dpow)]),
     ("night", Json.obj
       [("weather", weatherBlock nw),
        ("temperature", .str (pyStr nt ++ "℃".data)),
        ("wind", windBlock nwind npow)])])

/-- The `current` entry built from `lives[0]` (lines 781-795). -/
def buildLive (live : Json) : Except PyExc Json := do
  let w ← pyGetD live "weather" (.str [])
  let temp ← pyGetD live "temperature" (.str [])
  let wd ← pyGetD live "winddirection" (.str [])
  let wp ← pyGetD live "windpower" (.str [])
  let hum ← pyGetD live "humidity" (.str [])
  let rt ← pyGetD live "reporttime" (.str [])
  pure (Json.obj
    [("weather", weatherBlock w),
     ("temperature", .str (pyStr temp ++ "℃".data)),
     ("wind", windBlock wd wp),
     ("humidity", .str (pyStr hum ++ "%".data)),
     ("reporttime", rt)])

/-- `_get_weather_info` (lines 762-832): build the weather snapshot from a
successful response; any exception, and a non-success status, yield
`None`. -/
def get_weather_info (env : Env) (adcode : Json) : PyM Json :=
  PyM.catch
    (do
      let s ← PyM.get
      let result ← make_request env "/v3/weather/weatherInfo"
        [("key", .str s.key), ("city", adcode),
         ("extensions", .str "all".data), ("output", .str "json".data)]
      let status ← PyM.lift (pyGet result "status")
      if pyEqStr status "1".data then do
        let lives ← PyM.lift (pyGet result "lives")
        let current ←
          if truthy lives then do
            let lv ← PyM.lift (pyItem result "lives")
            let live ← PyM.lift (pyItem0 lv)
            PyM.lift (buildLive live)
          else pure Json.null
        let forecasts ← PyM.lift (pyGet result "forecasts")
        let fc ←
          if truthy forecasts then do
            let fs ← PyM.lift (pyItem result "forecasts")
            let f0 ← PyM.lift (pyItem0 fs)
            let casts ← PyM.lift (pyGetD f0 "casts" (.arr []))
            let items ← PyM.lift (pyIter casts)
            PyM.lift (items.mapM buildCast)
          else pure []
        pure (Json.obj [("current", current), ("forecast", .arr fc)])
      else pure Json.null)
    (fun _ => pure Json.null)

/-- `_empty_components` (lines 416-429). -/
def empty_components : Json :=
  Json.obj
    [("province", .str []), ("city", .str []), ("district", .str []),
     ("street", .str []), ("building", .str []), ("unit", .str []),
     ("room", .str []), ("name", .str []), ("phone", .str []),
     ("weather", .null)]

/-- Fields of a component dictionary (always an `obj` where used). -/
def objFields : Json → List (String × Json)
  | .obj l => l
  | _ => []

/-- `_extract_building_info` (lines 568-650): strip the known
province/city and contact info, clean, then either short-circuit on a
special place (matched against the ORIGINAL `address` argument,
lines 606-620) or extract unit and room from the remaining text. -/
def extract_building_info (env : Env) (address : List Char) (components : Json) :
    PyM Json :=
  PyM.lift (pyGet components "province") >>= fun v₁ =>
  (if truthy v₁ then PyM.lift (pyReplaceJson address v₁) else pure address) >>= fun r₁ =>
  PyM.lift (pyGet components "city") >>= fun v₂ =>
  (if truthy v₂ then PyM.lift (pyReplaceJson r₁ v₂) else pure r₁) >>= fun r₂ =>
  PyM.lift (pyGet components "name") >>= fun v₃ =>
  (if truthy v₃ then PyM.lift (pyReplaceJson r₂ v₃) else pure r₂) >>= fun r₃ =>
  PyM.lift (pyGet components "phone") >>= fun v₄ =>
  (if truthy v₄ then PyM.lift (pyReplaceJson r₃ v₄) else pure r₃) >>= fun r₄ =>
  clean_address_string env r₄ >>= fun r₅ =>
  match firstSome
      (fun pk => (searchFirst (cjkLitSuffixMatchHere pk.1) address).map fun _ => pk)
      special_keywords with
  | some (_, keep) =>
      PyM.lift (pyGet components "province") >>= fun w₁ =>
      (if truthy w₁ then PyM.lift (pyReplaceJson address w₁) else pure address) >>= fun sp₁ =>
      PyM.lift (pyGet components "city") >>= fun w₂ =>
      (if truthy w₂ then PyM.lift (pyReplaceJson sp₁ w₂) else pure sp₁) >>= fun sp₂ =>
      PyM.lift (pyGet components "district") >>= fun w₃ =>
      (if !keep && truthy w₃ then PyM.lift (pyReplaceJson sp₂ w₃) else pure sp₂) >>= fun sp₃ =>
      pure (Json.obj
        [("building", .str (pyStrip sp₃)), ("unit", .str []), ("room", .str [])])
  | none =>
      let ur :=
        match unitSearch r₅ with
        | some u => (u, pyRemoveAll r₅ u)
        | none => ([], r₅)
      let rr :=
        match roomSearch3 ur.2 with
        | some m => (m, subTrailingShi (pyRemoveAll ur.2 m))
        | none => ([], ur.2)
      pure (Json.obj
        [("building", .str (pyStrip (subSpaces rr.2))), ("unit", .str ur.1),
         ("room", .str rr.1)])

end Amap

namespace Amap

/-! ### The resolution chain and the POI matcher -/

/-- The component dictionary skeleton every branch builds: nine string
fields (empty unless filled) plus `weather`, in source order. -/
def base_components (p c d street : Json) : List (String × Json) :=
  [("province", p), ("city", c), ("district", d), ("street", street),
   ("building", .str []), ("unit", .str []), ("room", .str []),
   ("name", .str []), ("phone", .str []), ("weather", .null)]

/-- The dictionary of the district-name branch (lines 1011-1030): `city`
falls back to `province`, and the cleaned text becomes `building` unless
it equals the raw province/city/district strings
(`if clean_address not in [...]`). -/
def district_comps (clean : List Char) (p c₀ d : Json) : List (String × Json) :=
  if !(p == Json.str clean || c₀ == Json.str clean || d == Json.str clean) then
    setAssoc (base_components p (if truthy c₀ then c₀ else p) d (.str [])) "building"
      (.str clean)
  else base_components p (if truthy c₀ then c₀ else p) d (.str [])

/-- Lines 1068-1074: merge the building decomposition into the dictionary,
then store the extracted name and phone. -/
def with_contact_update (text : List Char) (comps : List (String × Json)) (binfo : Json) :
    List (String × Json) :=
  setAssoc
    (setAssoc (dictUpdate comps (objFields binfo)) "name"
      (.str (extract_contact_info text).1))
    "phone" (.str (extract_contact_info text).2)

/-- `_parse_address_by_text` (lines 1002-1084): clean, try the exact
district-name lookup, then forward geocoding; fall through (and every
exception) to the empty record. -/
def parse_address_by_text (env : Env) (address : List Char) : PyM Json :=
  PyM.catch
    (clean_address_string env address >>= fun clean =>
     get_district_by_name env clean >>= fun di =>
     PyM.lift (pyGet di "province") >>= fun dip =>
     if truthy di && truthy dip then
       PyM.lift (pyGetD di "province" (.str [])) >>= fun p =>
       PyM.lift (pyGetD di "city" (.str [])) >>= fun c₀ =>
       PyM.lift (pyGetD di "district" (.str [])) >>= fun d =>
       PyM.lift (pyGet di "adcode") >>= fun adc =>
       (if truthy adc then
          PyM.lift (pyItem di "adcode") >>= fun a =>
          get_weather_info env a >>= fun w =>
          pure (setAssoc (district_comps clean p c₀ d) "weather" w)
        else pure (district_comps clean p c₀ d)) >>= fun comps =>
       pure (Json.obj comps)
     else
       geo_code env clean >>= fun geo =>
       PyM.lift (pyGet geo "status") >>= fun gst =>
       PyM.lift (pyGet geo "geocodes") >>= fun gcs =>
       if pyEqStr gst "1".data && truthy gcs then
         PyM.lift (pyItem geo "geocodes") >>= fun gl =>
         PyM.lift (pyItem0 gl) >>= fun g =>
         PyM.lift (pyGetD g "province" (.str [])) >>= fun p =>
         PyM.lift (pyGetD g "city" (.str [])) >>= fun c₀ =>
         PyM.lift (pyGetD g "district" (.str [])) >>= fun d =>
         PyM.lift (pyGetD g "formatted_address" (.str [])) >>= fun fa =>
         (if truthy fa then
            (match fa with
             | .str t => pure t
             | _ => PyM.raise .typeError) >>= fun fstr =>   -- re.search on a non-str
            PyM.lift (extract_possible_street fstr
              [p, if truthy c₀ then c₀ else p, d]) >>= fun street =>
            if !street.isEmpty then
              pure (setAssoc (base_components p (if truthy c₀ then c₀ else p) d (.str []))
                "street" (.str street))
            else pure (base_components p (if truthy c₀ then c₀ else p) d (.str []))
          else pure (base_components p (if truthy c₀ then c₀ else p) d (.str [])))
           >>= fun comps =>
         extract_building_info env clean (Json.obj comps) >>= fun binfo =>
         PyM.lift (pyGet g "adcode") >>= fun adc =>
         (if truthy adc then
            PyM.lift (pyItem g "adcode") >>= fun a =>
            get_weather_info env a >>= fun w =>
            pure (setAssoc (with_contact_update clean comps binfo) "weather" w)
          else pure (with_contact_update clean comps binfo)) >>= fun comps =>
         pure (Json.obj comps)
       else pure empty_components)
    (fun _ => pure empty_components)

/-- The successful reverse-geocode branch of `parse_address`
(lines 159-192), given the response's `regeocode` record: build the
component dictionary from the address-component breakdown, extract
contact info and building details from the raw input, fetch the weather
into the local `weather_info` (never assigned into the dictionary), and
return the dictionary. -/
def coordinate_branch (env : Env) (address : List Char) (regeo : Json) : PyM Json :=
  PyM.lift (pyGetD regeo "addressComponent" (Json.obj [])) >>= fun ac =>
  PyM.lift (pyGetD ac "province" (.str [])) >>= fun p =>
  PyM.lift (pyGetD ac "city" (.str [])) >>= fun c₀ =>
  PyM.lift (pyGetD ac "district" (.str [])) >>= fun d =>
  PyM.lift (pyGetD ac "township" (.str [])) >>= fun tw =>
  (if !address.isEmpty then
     extract_building_info env address
       (Json.obj (setAssoc
         (setAssoc (base_components p (if truthy c₀ then c₀ else p) d tw) "name"
           (.str (extract_contact_info address).1))
         "phone" (.str (extract_contact_info address).2))) >>= fun binfo =>
     pure (dictUpdate
       (setAssoc
         (setAssoc (base_components p (if truthy c₀ then c₀ else p) d tw) "name"
           (.str (extract_contact_info address).1))
         "phone" (.str (extract_contact_info address).2))
       (objFields binfo))
   else pure (base_components p (if truthy c₀ then c₀ else p) d tw))
    >>= fun comps =>
  -- 获取天气信息: bound to the local `weather_info`, then dropped
  PyM.lift (pyGet ac "adcode") >>= fun adc =>
  (if truthy adc then
     PyM.lift (pyItem ac "adcode") >>= fun a =>
     get_weather_info env a
   else pure Json.null) >>= fun _weather_info =>
  pure (Json.obj comps)

/-- `parse_address` (lines 135-199): clean (for its side effects only —
the cleaned string is computed but the branches below use the raw
`address`), resolve coordinates, and when a location is available try the
reverse-geocode branch; in that branch the weather is fetched into a local
variable that is never stored in the returned record.  Any exception
anywhere degrades to the empty record.  Unlike the text branch, contact
info is stored BEFORE the building decomposition here (lines 179-185), so
the decomposition sees and strips the name and phone. -/
def parse_address (env : Env) (address : List Char)
    (coordinates : Option (List Char)) (coordsys : Option (List Char)) : PyM Json :=
  PyM.catch
    (clean_address_string env address >>= fun _clean =>
     (match coordinates with
      | some coords =>
          if !coords.isEmpty then
            match coordsys with
            | some cs =>
                if !cs.isEmpty && cs ≠ "autonavi".data then
                  convert_coordinates env coords cs
                else pure (Json.str coords)
            | none => pure (Json.str coords)
          else pure Json.null
      | none => pure Json.null) >>= fun location =>
     if truthy location then
       regeo_code env location >>= fun rr =>
       PyM.lift (pyGet rr "status") >>= fun st =>
       PyM.lift (pyGet rr "regeocode") >>= fun rg =>
       if pyEqStr st "1".data && truthy rg then
         PyM.lift (pyItem rr "regeocode") >>= fun regeo =>
         coordinate_branch env address regeo
       else parse_address_by_text env address
     else parse_address_by_text env address)
    (fun _ => pure empty_components)

/-- `AddressCompleter.complete_address` (address_completer.py): the single
public entry point, delegating to `parse_address` with no coordinates. -/
def complete_address (env : Env) (address : List Char) : PyM Json :=
  parse_address env address none none

/-- Python `str.split(';')` (keeps empty pieces). -/
def splitSemicolon : List Char → List (List Char)
  | [] => [[]]
  | c :: rest =>
      let r := splitSemicolon rest
      if c == ';' then [] :: r
      else
        match r with
        | w :: ws => (c :: w) :: ws
        | [] => [[c]]

/-- `max(scored, key=lambda x: x[0])[1]`: the first element of the
maximal-score group. -/
def maxByFirst : List (Int × Json) → Option Json
  | [] => none
  | (s, p) :: rest =>
      some (rest.foldl (fun (acc : Int × Json) x => if x.1 > acc.1 then x else acc) (s, p)).2

/-- The score of one candidate (lines 862-902). -/
def poiScore (address : List Char) (poi : Json) : Except PyExc Int := do
  let nm ← pyGet poi "name"
  let inA ← pyInStr nm address
  let score : Int := if inA then 5 else 0
  let score := if inA && nm == Json.str address then score + 3 else score
  let ad ← pyGet poi "address"
  let score ←
    if truthy ad then do
      let adv ← pyItem poi "address"
      let inAd ← pyInStr adv address
      if inAd then pure (score + 3)
      else do
        let inBack ←
          match adv with
          | .str t => pure (isSubstring address t)
          | _ => .error .typeError
        pure (if inBack then score + 2 else score)
    else pure score
  let an ← pyGet poi "adname"
  let inAn ← pyInStr an address
  let score := if inAn then score + 2 else score
  let bus ← pyGetD poi "business" (Json.obj [])
  let ba ← pyGet bus "business_area"
  let score ←
    if truthy ba then do
      let b ← pyItem poi "business"
      let bav ← pyItem b "business_area"
      let i ← pyInStr bav address
      pure (if i then score + 1 else score)
    else pure score
  let ty ← pyGet poi "type"
  let score ←
    if truthy ty then do
      let tyv ← pyItem poi "type"
      match tyv with
      | .str t =>
          pure (if (splitSemicolon t).any (fun piece => isSubstring piece address)
                then score + 1 else score)
      | _ => .error .attributeError   -- .split on a non-str
    else pure score
  let al ← pyGet poi "alias"
  let score ←
    if truthy al then do
      let alv ← pyItem poi "alias"
      let i ← pyInStr alv address
      pure (if i then score + 1 else score)
    else pure score
  let ch ← pyGet poi "children"
  let score ←
    if truthy ch then do
      let chv ← pyItem poi "children"
      let items ← pyIter chv
      items.foldlM
        (fun (sc : Int) child => do
          let cn ← pyGet child "name"
          let i ← pyInStr cn address
          pure (if i then sc + 2 else sc))
        score
    else pure score
  pure score

/-- `_find_best_poi_match` (lines 855-908): `None` on an empty candidate
list, otherwise score every candidate and return the first of the
maximal-score group.  The scoring raises (e.g. `TypeError` from
`poi.get('name') in address` when a candidate lacks `name`) and the
function has no handler, so such exceptions propagate to the caller. -/
def find_best_poi_match (pois : List Json) (address : List Char) :
    Except PyExc (Option Json) := do
  if pois.isEmpty then return none
  let scored ← pois.mapM (fun poi => do
    let sc ← poiScore address poi
    pure (sc, poi))
  if scored.isEmpty then return none
  return maxByFirst scored

end Amap

namespace Amap

/-! ### Proof infrastructure -/

instance instDecEqExcept {ε α : Type} [DecidableEq ε] [DecidableEq α] :
    DecidableEq (Except ε α) :=
  fun a b =>
    match a, b with
    | .ok x, .ok y =>
        if h : x = y then .isTrue (by rw [h]) else .isFalse fun hh => h (by cases hh; rfl)
    | .error x, .error y =>
        if h : x = y then .isTrue (by rw [h]) else .isFalse fun hh => h (by cases hh; rfl)
    | .ok _, .error _ => .isFalse fun h => Except.noConfusion h
    | .error _, .ok _ => .isFalse fun h => Except.noConfusion h

/-- Every value a computation can return without raising satisfies `P`. -/
def PostOk {α : Type} (m : PyM α) (P : α → Prop) : Prop :=
  ∀ s a s', m s = (.ok a, s') → P a

/-- The computation always returns (never raises), with a value
satisfying `P`. -/
def TotalOk {α : Type} (m : PyM α) (P : α → Prop) : Prop :=
  ∀ s, ∃ a s', m s = (.ok a, s') ∧ P a

theorem postOk_pure {α : Type} {a : α} {P : α → Prop} (h : P a) :
    PostOk (pure a : PyM α) P := by
  intro s b s' hb
  cases hb
  exact h

theorem postOk_raise {α : Type} {e : PyExc} {P : α → Prop} :
    PostOk (PyM.raise e : PyM α) P := by
  intro s b s' hb
  cases hb

theorem postOk_bind {α β : Type} {m : PyM α} {f : α → PyM β} {P : α → Prop}
    {Q : β → Prop} (hm : PostOk m P) (hf : ∀ a, P a → PostOk (f a) Q) :
    PostOk (m >>= f) Q := by
  intro s b s' hb
  show Q b
  have : (m >>= f) s = match m s with
    | (.ok a, s₁) => f a s₁
    | (.error e, s₁) => (.error e, s₁) := rfl
  rw [this] at hb
  rcases hms : m s with ⟨r, s₁⟩
  rw [hms] at hb
  cases r with
  | ok a => exact hf a (hm s a s₁ hms) s₁ b s' hb
  | error e => cases hb

theorem postOk_bind_with {α β : Type} {m : PyM α} {f : α → PyM β}
    (P : α → Prop) {Q : β → Prop} (hm : PostOk m P)
    (hf : ∀ a, P a → PostOk (f a) Q) : PostOk (m >>= f) Q :=
  postOk_bind hm hf

theorem postOk_bind_weak {α β : Type} {m : PyM α} {f : α → PyM β}
    {Q : β → Prop} (hf : ∀ a, PostOk (f a) Q) :
    PostOk (m >>= f) Q :=
  postOk_bind_with (fun _ => True) (fun _ _ _ _ => trivial) (fun a _ => hf a)

theorem postOk_catch {α : Type} {m : PyM α} {h : PyExc → PyM α} {P : α → Prop}
    (hm : PostOk m P) (hh : ∀ e, PostOk (h e) P) :
    PostOk (PyM.catch m h) P := by
  intro s b s' hb
  have hc : PyM.catch m h s = match m s with
    | (.ok a, s₁) => (Except.ok a, s₁)
    | (.error e, s₁) => h e s₁ := rfl
  rw [hc] at hb
  rcases hms : m s with ⟨r, s₁⟩
  rw [hms] at hb
  cases r with
  | ok a =>
      simp only [Prod.mk.injEq] at hb
      obtain ⟨h1, _⟩ := hb
      injection h1 with h1
      exact h1 ▸ hm s a s₁ hms
  | error e => exact hh e s₁ b s' hb

theorem totalOk_catch {α : Type} {m : PyM α} {h : PyExc → PyM α} {P : α → Prop}
    (hm : PostOk m P) (hh : ∀ e, TotalOk (h e) P) :
    TotalOk (PyM.catch m h) P := by
  intro s
  show ∃ a s', (match m s with
    | (.ok a, s₁) => (Except.ok a, s₁)
    | (.error e, s₁) => h e s₁) = (.ok a, s') ∧ P a
  rcases hms : m s with ⟨r, s₁⟩
  cases r with
  | ok a => exact ⟨a, s₁, rfl, hm s a s₁ hms⟩
  | error e =>
      obtain ⟨a, s₂, ha, hp⟩ := hh e s₁
      exact ⟨a, s₂, ha, hp⟩

theorem postOk_elim {α : Type} {m : PyM α} {P : α → Prop} (h : PostOk m P)
    {s : PState} {a : α} {s' : PState} (he : m s = (.ok a, s')) : P a :=
  h s a s' he

theorem totalOk_elim {α : Type} {m : PyM α} {P : α → Prop} (h : TotalOk m P)
    (s : PState) : ∃ a s', m s = (.ok a, s') ∧ P a :=
  h s

theorem totalOk_pure {α : Type} {a : α} {P : α → Prop} (h : P a) :
    TotalOk (pure a : PyM α) P :=
  fun s => ⟨a, s, rfl, h⟩

/-- A `try/except` whose results all satisfy `P` and whose handler always
returns is total. -/
theorem totalOk_catch_of_postOk {α : Type} {m : PyM α} {h : PyExc → PyM α}
    {P : α → Prop} (hg : PostOk (PyM.catch m h) P) (hh : ∀ e, TotalOk (h e) P) :
    TotalOk (PyM.catch m h) P := by
  intro s
  rcases hms : m s with ⟨r, s₁⟩
  cases r with
  | ok a =>
      have hrun : PyM.catch m h s = (.ok a, s₁) := by
        show (match m s with
          | (.ok a, s₁) => (Except.ok a, s₁)
          | (.error e, s₁) => h e s₁) = (.ok a, s₁)
        rw [hms]
      exact ⟨a, s₁, hrun, hg s a s₁ hrun⟩
  | error e =>
      obtain ⟨a, s₂, ha, hp⟩ := hh e s₁
      have hrun : PyM.catch m h s = (.ok a, s₂) := by
        show (match m s with
          | (.ok a, s₁) => (Except.ok a, s₁)
          | (.error e, s₁) => h e s₁) = (.ok a, s₂)
        rw [hms]
        exact ha
      exact ⟨a, s₂, hrun, hp⟩

/-! Small-step evaluation equations for the monad, used to trace a run of
`parse_address` through a pinned-down oracle. -/

theorem PyM.run_bind {α β : Type} (m : PyM α) (f : α → PyM β) (s : PState) :
    (m >>= f) s = match m s with
      | (.ok a, s') => f a s'
      | (.error e, s') => (.error e, s') := rfl

theorem PyM.run_catch {α : Type} (m : PyM α) (h : PyExc → PyM α) (s : PState) :
    PyM.catch m h s = match m s with
      | (.ok a, s') => (Except.ok a, s')
      | (.error e, s') => h e s' := rfl

theorem PyM.run_pure {α : Type} (a : α) (s : PState) :
    (pure a : PyM α) s = (.ok a, s) := rfl

theorem PyM.run_lift {α : Type} (x : Except PyExc α) (s : PState) :
    (PyM.lift x) s = (x, s) := rfl

theorem postOk_mono {α : Type} {m : PyM α} {P Q : α → Prop}
    (h : PostOk m P) (himp : ∀ a, P a → Q a) : PostOk m Q :=
  fun s a s' he => himp a (h s a s' he)

attribute [irreducible] PostOk TotalOk

/-- The component dictionaries' fixed key tuple. -/
def KEYS : List String :=
  ["province", "city", "district", "street", "building", "unit", "room",
   "name", "phone", "weather"]

def keysOf (l : List (String × Json)) : List String := l.map Prod.fst

/-- `KeysP j`: `j` is a dict with exactly the nine string component keys
plus `weather`, in the canonical order. -/
def KeysP (j : Json) : Prop := ∃ l, j = Json.obj l ∧ keysOf l = KEYS

theorem keysOf_setAssoc {k : String} {v : Json} :
    ∀ {l : List (String × Json)}, k ∈ keysOf l → keysOf (setAssoc l k v) = keysOf l
  | [], h => by cases h
  | (k', v') :: rest, h => by
      by_cases hk : k' = k
      · subst hk
        simp [setAssoc, keysOf]
      · have hne : (k' == k) = false := by simp [hk]
        have hmem : k ∈ keysOf rest := by
          rcases List.mem_cons.mp h with h1 | h1
          · exact absurd h1.symm hk
          · exact h1
        have ih := @keysOf_setAssoc k v rest hmem
        simp only [keysOf] at ih
        simp [setAssoc, hne, keysOf, ih]

theorem lookup_setAssoc_self {l : List (String × Json)} {k : String} {v : Json} :
    (setAssoc l k v).lookup k = some v := by
  induction l with
  | nil => simp [setAssoc, List.lookup]
  | cons kv rest ih =>
      obtain ⟨k', v'⟩ := kv
      by_cases hk : k' = k
      · subst hk
        simp [setAssoc, List.lookup]
      · have hne : (k' == k) = false := by simp [hk]
        have hne' : (k == k') = false := by simp [Ne.symm hk]
        simp [setAssoc, hne, List.lookup, hne', ih]

theorem lookup_setAssoc_ne {k k' : String} {v : Json} (h : k ≠ k') :
    ∀ {l : List (String × Json)}, (setAssoc l k' v).lookup k = l.lookup k
  | [] => by
      have : (k == k') = false := by simp [h]
      simp [setAssoc, List.lookup, this]
  | (k₁, v₁) :: rest => by
      by_cases hk : k₁ = k'
      · subst hk
        have : (k == k₁) = false := by simp [h]
        simp [setAssoc, List.lookup, this]
      · have hne : (k₁ == k') = false := by simp [hk]
        have ih := @lookup_setAssoc_ne k k' v h rest
        simp [setAssoc, hne, List.lookup, ih]

end Amap

namespace Amap

/-- Shape of every `_extract_building_info` result: a dict with exactly
the keys `building`, `unit`, `room`. -/
def BURshape (j : Json) : Prop :=
  ∃ b u r, j = Json.obj [("building", b), ("unit", u), ("room", r)]

theorem extract_building_info_shape (env : Env) (addr : List Char) (comps : Json) :
    PostOk (extract_building_info env addr comps) BURshape := by
  unfold extract_building_info
  apply postOk_bind_weak; intro v₁
  apply postOk_bind_weak; intro r₁
  apply postOk_bind_weak; intro v₂
  apply postOk_bind_weak; intro r₂
  apply postOk_bind_weak; intro v₃
  apply postOk_bind_weak; intro r₃
  apply postOk_bind_weak; intro v₄
  apply postOk_bind_weak; intro r₄
  apply postOk_bind_weak; intro r₅
  split
  · apply postOk_bind_weak; intro w₁
    apply postOk_bind_weak; intro sp₁
    apply postOk_bind_weak; intro w₂
    apply postOk_bind_weak; intro sp₂
    apply postOk_bind_weak; intro w₃
    apply postOk_bind_weak; intro sp₃
    exact postOk_pure ⟨_, _, _, rfl⟩
  · exact postOk_pure ⟨_, _, _, rfl⟩

end Amap

namespace Amap

theorem keysOf_empty : KeysP empty_components := ⟨_, rfl, rfl⟩

/-- The literal component dictionary of each branch carries exactly
`KEYS`. -/
theorem keysOf_base (p c d st : Json) :
    keysOf [("province", p), ("city", c), ("district", d), ("street", st),
            ("building", Json.str []), ("unit", Json.str []), ("room", Json.str []),
            ("name", Json.str []), ("phone", Json.str []), ("weather", Json.null)] = KEYS := rfl

theorem mem_KEYS_of_keysOf {l : List (String × Json)} {k : String}
    (hl : keysOf l = KEYS) (hk : k ∈ KEYS) : k ∈ keysOf l := by
  rw [hl]; exact hk

theorem keysOf_setAssoc_KEYS {l : List (String × Json)} {k : String} {v : Json}
    (hl : keysOf l = KEYS) (hk : k ∈ KEYS) : keysOf (setAssoc l k v) = KEYS := by
  rw [keysOf_setAssoc (mem_KEYS_of_keysOf hl hk), hl]

/-- `components.update(building_info)` keeps the key tuple when the
update's keys are component keys. -/
theorem keysOf_dictUpdate_BUR {l : List (String × Json)} {b u r : Json}
    (hl : keysOf l = KEYS) :
    keysOf (dictUpdate l [("building", b), ("unit", u), ("room", r)]) = KEYS := by
  show keysOf (setAssoc (setAssoc (setAssoc l "building" b) "unit" u) "room" r) = KEYS
  apply keysOf_setAssoc_KEYS
  apply keysOf_setAssoc_KEYS
  apply keysOf_setAssoc_KEYS hl
  all_goals decide

end Amap

namespace Amap

theorem keysOf_base_components (p c d st : Json) :
    keysOf (base_components p c d st) = KEYS := rfl

theorem keysOf_district_comps (clean : List Char) (p c₀ d : Json) :
    keysOf (district_comps clean p c₀ d) = KEYS := by
  unfold district_comps
  split
  · exact keysOf_setAssoc_KEYS (keysOf_base_components ..) (by decide)
  · exact keysOf_base_components ..

theorem keysOf_with_contact_update {text : List Char} {comps : List (String × Json)}
    {binfo : Json} (hc : keysOf comps = KEYS) (hb : BURshape binfo) :
    keysOf (with_contact_update text comps binfo) = KEYS := by
  obtain ⟨b, u, r, rfl⟩ := hb
  unfold with_contact_update
  apply keysOf_setAssoc_KEYS
  apply keysOf_setAssoc_KEYS
  exact keysOf_dictUpdate_BUR hc
  all_goals decide

/-- Every result `_parse_address_by_text` can return is a component
dictionary with exactly the canonical keys. -/
theorem parse_address_by_text_keys (env : Env) (a : List Char) :
    PostOk (parse_address_by_text env a) KeysP := by
  unfold parse_address_by_text
  apply postOk_catch
  · apply postOk_bind_weak; intro clean
    apply postOk_bind_weak; intro di
    apply postOk_bind_weak; intro dip
    split
    · -- district-name branch
      apply postOk_bind_weak; intro p
      apply postOk_bind_weak; intro c₀
      apply postOk_bind_weak; intro d
      apply postOk_bind_weak; intro adc
      apply postOk_bind_with (fun l => keysOf l = KEYS)
      · split
        · apply postOk_bind_weak; intro aj
          apply postOk_bind_weak; intro w
          exact postOk_pure (keysOf_setAssoc_KEYS (keysOf_district_comps ..) (by decide))
        · exact postOk_pure (keysOf_district_comps ..)
      · intro l hl
        exact postOk_pure ⟨l, rfl, hl⟩
    · -- geocode branch
      apply postOk_bind_weak; intro geo
      apply postOk_bind_weak; intro gst
      apply postOk_bind_weak; intro gcs
      split
      · apply postOk_bind_weak; intro gl
        apply postOk_bind_weak; intro g
        apply postOk_bind_weak; intro p
        apply postOk_bind_weak; intro c₀
        apply postOk_bind_weak; intro d
        apply postOk_bind_weak; intro fa
        apply postOk_bind_with (fun l => keysOf l = KEYS)
        · split
          · apply postOk_bind_weak; intro fstr
            apply postOk_bind_weak; intro street
            split
            · exact postOk_pure (keysOf_setAssoc_KEYS (keysOf_base_components ..) (by decide))
            · exact postOk_pure (keysOf_base_components ..)
          · exact postOk_pure (keysOf_base_components ..)
        · intro l hl
          apply postOk_bind_with BURshape
          · exact extract_building_info_shape env clean (Json.obj l)
          · intro binfo hb
            apply postOk_bind_weak; intro adc
            apply postOk_bind_with (fun l2 => keysOf l2 = KEYS)
            · split
              · apply postOk_bind_weak; intro aj
                apply postOk_bind_weak; intro w
                exact postOk_pure
                  (keysOf_setAssoc_KEYS (keysOf_with_contact_update hl hb) (by decide))
              · exact postOk_pure (keysOf_with_contact_update hl hb)
            · intro l2 hl2
              exact postOk_pure ⟨l2, rfl, hl2⟩
      · exact postOk_pure keysOf_empty
  · intro e
    exact postOk_pure keysOf_empty

/-- Every result of the reverse-geocode branch is a component dictionary
with exactly the canonical keys. -/
theorem coordinate_branch_keys (env : Env) (a : List Char) (regeo : Json) :
    PostOk (coordinate_branch env a regeo) KeysP := by
  unfold coordinate_branch
  apply postOk_bind_weak; intro ac
  apply postOk_bind_weak; intro p
  apply postOk_bind_weak; intro c₀
  apply postOk_bind_weak; intro d
  apply postOk_bind_weak; intro tw
  apply postOk_bind_with (fun l => keysOf l = KEYS)
  · split
    · apply postOk_bind_with BURshape
      · exact extract_building_info_shape env a _
      · intro binfo hb
        obtain ⟨b, u, r, rfl⟩ := hb
        apply postOk_pure
        apply keysOf_dictUpdate_BUR
        apply keysOf_setAssoc_KEYS
        apply keysOf_setAssoc_KEYS (keysOf_base_components ..)
        all_goals decide
    · exact postOk_pure (keysOf_base_components ..)
  · intro l hl
    apply postOk_bind_weak; intro adc
    apply postOk_bind_weak; intro _w
    exact postOk_pure ⟨l, rfl, hl⟩

/-- Every result `parse_address` can return is a component dictionary
with exactly the canonical keys. -/
theorem parse_address_keys (env : Env) (a : List Char)
    (coords sys : Option (List Char)) :
    PostOk (parse_address env a coords sys) KeysP := by
  unfold parse_address
  apply postOk_catch
  · apply postOk_bind_weak; intro _clean
    apply postOk_bind_weak; intro location
    split
    · -- coordinate (reverse-geocode) branch
      apply postOk_bind_weak; intro rr
      apply postOk_bind_weak; intro st
      apply postOk_bind_weak; intro rg
      split
      · apply postOk_bind_weak; intro regeo
        exact coordinate_branch_keys env a regeo
      · exact parse_address_by_text_keys env a
    · exact parse_address_by_text_keys env a
  · intro e
    exact postOk_pure keysOf_empty

end Amap

namespace Amap

/-- `j` is a dict whose `weather` entry is `None`. -/
def WeatherNullP (j : Json) : Prop :=
  ∃ l, j = Json.obj l ∧ l.lookup "weather" = some Json.null

theorem lookup_weather_contact_update (l : List (String × Json)) (b u r nm ph : Json)
    (h : l.lookup "weather" = some Json.null) :
    (dictUpdate (setAssoc (setAssoc l "name" nm) "phone" ph)
      [("building", b), ("unit", u), ("room", r)]).lookup "weather" = some Json.null := by
  show (setAssoc (setAssoc (setAssoc (setAssoc (setAssoc l "name" nm) "phone" ph)
    "building" b) "unit" u) "room" r).lookup "weather" = some Json.null
  rw [lookup_setAssoc_ne (by decide), lookup_setAssoc_ne (by decide),
      lookup_setAssoc_ne (by decide), lookup_setAssoc_ne (by decide),
      lookup_setAssoc_ne (by decide)]
  exact h

theorem lookup_weather_base (p c d tw : Json) :
    (base_components p c d tw).lookup "weather" = some Json.null := rfl

/-- Every result of the reverse-geocode branch keeps `weather = None`:
the fetched `weather_info` is bound to a local and never stored. -/
theorem coordinate_branch_weather (env : Env) (a : List Char) (regeo : Json) :
    PostOk (coordinate_branch env a regeo) WeatherNullP := by
  unfold coordinate_branch
  apply postOk_bind_weak; intro ac
  apply postOk_bind_weak; intro p
  apply postOk_bind_weak; intro c₀
  apply postOk_bind_weak; intro d
  apply postOk_bind_weak; intro tw
  apply postOk_bind_with (fun l => l.lookup "weather" = some Json.null)
  · split
    · apply postOk_bind_with BURshape
      · exact extract_building_info_shape env a _
      · intro binfo hb
        obtain ⟨b, u, r, rfl⟩ := hb
        exact postOk_pure
          (lookup_weather_contact_update _ b u r _ _ (lookup_weather_base ..))
    · exact postOk_pure (lookup_weather_base ..)
  · intro l hl
    apply postOk_bind_weak; intro adc
    apply postOk_bind_weak; intro _w
    exact postOk_pure ⟨l, rfl, hl⟩

/-! ### Concrete environments used by the claim theorems -/

/-- An oracle on which every network request raises. -/
def failAllOracle : String → List (String × Json) → Except NetErr Json :=
  fun _ _ => .error (.other "Connection refused".data)

def failAllEnv : Env := { oracle := failAllOracle, today := "2025-01-01", now := 17 }

/-- An oracle answering every request with a bare success status. -/
def okStatusOracle : String → List (String × Json) → Except NetErr Json :=
  fun _ _ => .ok (Json.obj [("status", .str "1".data)])

def quotaEnvDay1 : Env := { oracle := okStatusOracle, today := "2025-01-01", now := 5 }

def quotaEnvDay2 : Env := { oracle := okStatusOracle, today := "2025-01-02", now := 6 }

/-- `n` successive `_make_request` calls on one path; result of the last
call plus the final state. -/
def make_request_iter (env : Env) (path : String) : Nat → PState → Except PyExc Json × PState
  | 0, s => (.ok Json.null, s)
  | n + 1, s =>
      match n with
      | 0 => make_request env path [] s
      | m + 1 => make_request_iter env path (m + 1) (make_request env path [] s).2

/-- A provider response rejecting the request with the known code 10001. -/
def badKeyOracle : String → List (String × Json) → Except NetErr Json :=
  fun _ _ => .ok (Json.obj
    [("status", .str "0".data), ("info", .str "INVALID_USER_KEY".data),
     ("infocode", .str "10001".data)])

def badKeyEnv : Env := { oracle := badKeyOracle, today := "2025-01-01", now := 3 }

/-- A provider response with an error code absent from `ERROR_MESSAGES`. -/
def unknownCodeOracle : String → List (String × Json) → Except NetErr Json :=
  fun _ _ => .ok (Json.obj
    [("status", .str "0".data), ("info", .str "SOME_NEW_ERROR".data),
     ("infocode", .str "99999".data)])

def unknownCodeEnv : Env := { oracle := unknownCodeOracle, today := "2025-01-01", now := 3 }

end Amap

namespace Amap

/-! ### Claim theorems -/

/-- C4: the claim says `_make_request` fails with a `ServiceError` carrying
the response's error code and the table message (falling back to the
provider's `info`).  The inner `_check_response` does raise exactly that
error, but `_make_request`'s own blanket `except Exception` clause catches
it and re-raises `AmapError("30000", "请求失败: " + str(e))`, so the error
that reaches the caller carries code "30000", not the response's code.
The conjuncts show: the inner raise matches the claim for a known code and
for the provider-text fallback, and the surfaced error is the re-wrapped
one. -/
theorem claim_C4 :
    check_response (Json.obj
      [("status", .str "0".data), ("info", .str "INVALID_USER_KEY".data),
       ("infocode", .str "10001".data)]) =
      .error (.amap (.str "10001".data) (.str "API密钥不正确或已过期".data)) ∧
    check_response (Json.obj
      [("status", .str "0".data), ("info", .str "SOME_NEW_ERROR".data),
       ("infocode", .str "99999".data)]) =
      .error (.amap (.str "99999".data) (.str "SOME_NEW_ERROR".data)) ∧
    (make_request badKeyEnv "/v3/ip" [] initState).1 =
      .error (.amap (.str "30000".data)
        (.str "请求失败: 错误码 10001: API密钥不正确或已过期".data)) ∧
    (make_request badKeyEnv "/v3/ip" [] initState).1 ≠
      .error (.amap (.str "10001".data) (.str "API密钥不正确或已过期".data)) ∧
    (make_request unknownCodeEnv "/v3/ip" [] initState).1 =
      .error (.amap (.str "30000".data)
        (.str "请求失败: 错误码 99999: SOME_NEW_ERROR".data)) := by
  refine ⟨by decide, by decide, by decide, by decide, by decide⟩

/-- C6 counterexample: the spec's example `extract("张先生13812345678送货")`
does NOT return name "张先生" — after the phone number is removed the name
pattern's word-boundary lookahead rejects 张先生 (it is followed by 送货),
the first match is "生送货", and the surname whitelist rejects that, so the
name comes back empty. -/
theorem claim_C6_counterexample :
    extract_contact_info "张先生13812345678送货".data ≠
      ("张先生".data, "13812345678".data) := by decide

/-- C6 amended: `extract("张先生13812345678送货")` returns phone
"13812345678" and name "" (empty).  (With a separator, e.g.
"张先生 13812345678送货", the name "张先生" is recognised.) -/
theorem claim_C6 :
    extract_contact_info "张先生13812345678送货".data = ([], "13812345678".data) ∧
    extract_contact_info "张先生 13812345678送货".data =
      ("张先生".data, "13812345678".data) := by
  refine ⟨by decide, by decide⟩

/-- C7 counterexample: the claim attributes to `_extract_building_info` a
four-pattern room list whose lookahead accepts 室, 房 or end-of-string and
which includes a compass-direction form.  The function's actual list
(lines 630-634) has three patterns, accepts only 室 or end-of-string, and
has no compass form: on "3号楼501房" the claimed behaviour extracts room
"501", the code extracts nothing. -/
theorem claim_C7_counterexample :
    (extract_building_info failAllEnv "3号楼501房".data (Json.obj []) initState).1 =
      .ok (Json.obj [("building", .str "3号楼501房".data), ("unit", .str []),
                     ("room", .str [])]) ∧
    (extract_building_info failAllEnv "3号楼501房".data (Json.obj []) initState).1 ≠
      .ok (Json.obj [("building", .str "3号楼".data), ("unit", .str []),
                     ("room", .str "501".data)]) := by
  refine ⟨by decide, by decide⟩

/-- C7 amended: after unit extraction, `_extract_building_info` extracts
the room by trying, in order, an unmarked 2-4 digit number, a
letter-prefixed form, and a hyphen-preceded form, each directly preceding
室 or end-of-string (no 房 alternative, no compass-direction pattern; the
室/房 four-pattern list belongs to `_extract_address_components`); the
first pattern with a match wins, its match is removed everywhere, and a
trailing lone 室 is removed.  Conjuncts: the standard decomposition; the
unmarked pattern winning (room "501", not "A501") on a letter-prefixed
input; the digit-lookbehind forcing "99" on "x12345室99". -/
theorem claim_C7 :
    (extract_building_info failAllEnv "3号楼2单元501室".data (Json.obj []) initState).1 =
      .ok (Json.obj [("building", .str "3号楼".data), ("unit", .str "2单元".data),
                     ("room", .str "501".data)]) ∧
    (extract_building_info failAllEnv "A501室".data (Json.obj []) initState).1 =
      .ok (Json.obj [("building", .str "A".data), ("unit", .str []),
                     ("room", .str "501".data)]) ∧
    (extract_building_info failAllEnv "x12345室99".data (Json.obj []) initState).1 =
      .ok (Json.obj [("building", .str "x12345".data), ("unit", .str []),
                     ("room", .str "99".data)]) := by
  refine ⟨by decide, by decide, by decide⟩

/-- C10: `_find_best_poi_match` raises `TypeError` on a non-empty
candidate list containing a candidate without a string `name` (first
conjunct) or without a string `adname` (second conjunct): the scoring
evaluates `None in address`.  A candidate with both fields is scored and
returned normally (third conjunct). -/
theorem claim_C10 :
    find_best_poi_match [Json.obj []] "国贸".data = .error .typeError ∧
    find_best_poi_match [Json.obj [("name", .str "国贸".data)]] "国贸".data =
      .error .typeError ∧
    ([Json.obj []] : List Json) ≠ [] ∧
    find_best_poi_match
      [Json.obj [("name", .str "国贸".data), ("adname", .str "朝阳区".data)]]
      "国贸".data =
      .ok (some (Json.obj [("name", .str "国贸".data), ("adname", .str "朝阳区".data)])) := by
  refine ⟨by decide, by decide, by decide, by decide⟩

end Amap

namespace Amap

/-- A provider answering geocode requests successfully. -/
def geoSuccessResponse : Json :=
  Json.obj [("status", .str "1".data),
            ("geocodes", .arr [Json.obj [("province", .str "北京市".data)]])]

def geoSuccessOracle : String → List (String × Json) → Except NetErr Json :=
  fun _ _ => .ok geoSuccessResponse

def geoSuccessEnv : Env := { oracle := geoSuccessOracle, today := "2025-01-01", now := 42 }

/-- C5 counterexample: a successful `_geo_code` (and `_regeo_code`) call
leaves the gateway state untouched — the daily counter is not incremented
and `last_request_time` is not updated (it stays 0 although the clock
reads 42), because these two lookups use a raw connection instead of
`_make_request`. -/
theorem claim_C5_counterexample :
    (geo_code geoSuccessEnv "国贸".data initState).1 = .ok geoSuccessResponse ∧
    pyGet geoSuccessResponse "status" = .ok (.str "1".data) ∧
    (geo_code geoSuccessEnv "国贸".data initState).2 = initState ∧
    (regeo_code geoSuccessEnv (.str "116.4,39.9".data) initState).2 = initState ∧
    initState.quota_counter = [] ∧
    initState.last_request_time = 0 ∧
    geoSuccessEnv.now = 42 := by
  refine ⟨by decide, by decide, by decide, by decide, by decide, by decide, by decide⟩

/-- C5 amended: `_geo_code` and `_regeo_code` are NOT built on top of
`_make_request` — they open raw connections (lines 213-217, 237-241), so
no forward- or reverse-geocode request ever updates `last_request_time`
or the per-path daily counter: the state is returned unchanged for every
oracle, state and argument. -/
theorem claim_C5 :
    ∀ (env : Env) (s : PState) (addr : List Char) (loc : Json),
      (geo_code env addr s).2 = s ∧ (regeo_code env loc s).2 = s := by
  intro env s addr loc
  constructor
  · unfold geo_code
    cases env.oracle "/v3/geocode/geo"
      [("address", .str addr), ("key", .str s.key), ("output", .str "json".data)] <;> rfl
  · unfold regeo_code
    cases env.oracle "/v3/geocode/regeo"
      [("location", loc), ("key", .str s.key), ("extensions", .str "all".data),
       ("output", .str "json".data)] <;> rfl

/-- The value `_clean_address_string` returns is always `cleanCore` of its
argument (when it returns at all): the county loop cannot change it. -/
theorem clean_address_string_value (env : Env) (a : List Char) :
    PostOk (clean_address_string env a) (fun r => r = cleanCore a) := by
  unfold clean_address_string
  apply postOk_bind_weak; intro a₁
  apply postOk_bind_weak; intro a₂
  exact postOk_pure rfl

/-- The district record the resolving oracle returns for 临县. -/
def linxianInfo : Json :=
  Json.obj [("province", .str "山西省".data), ("city", .str "吕梁市".data),
            ("district", .str "临县".data), ("adcode", .str "141124".data)]

def countyOracle : String → List (String × Json) → Except NetErr Json :=
  fun path _ =>
    if path == "/v3/config/district" then
      .ok (Json.obj [("status", .str "1".data),
        ("districts", .arr [Json.obj
          [("province", .str "山西省".data), ("cityname", .str "吕梁市".data),
           ("name", .str "临县".data), ("adcode", .str "141124".data)]])])
    else .error (.other "unreachable".data)

def countyEnv : Env := { oracle := countyOracle, today := "2025-01-01", now := 9 }

/-- C8: for the county-token input "临县" with a resolving district
lookup, `_clean_address_string` still returns "临县" unchanged — the
resolved province+city is prepended only to the local variable `address`
(line 299) while the function returns `' '.join(cleaned_parts)` computed
earlier (line 301).  The cache conjunct shows the lookup did resolve (the
loop ran and cached 山西省/吕梁市); the final conjunct shows no oracle can
ever make the returned string differ from the pure `cleanCore` pipeline. -/
theorem claim_C8 :
    (clean_address_string countyEnv "临县".data initState).1 = .ok "临县".data ∧
    (clean_address_string countyEnv "临县".data initState).2.district_name_cache =
      [("临县".data, linxianInfo)] ∧
    (clean_address_string countyEnv "临县".data initState).1 ≠
      .ok "山西省吕梁市临县".data ∧
    (∀ (env : Env) (s : PState) (a : List Char),
      (clean_address_string env a s).1 = .ok (cleanCore a) ∨
      ∃ e, (clean_address_string env a s).1 = .error e) := by
  refine ⟨by decide, by decide, by decide, ?_⟩
  intro env s a
  rcases h : clean_address_string env a s with ⟨r, s'⟩
  cases r with
  | ok v =>
      left
      have hv := postOk_elim (clean_address_string_value env a) h
      exact congrArg Except.ok hv
  | error e =>
      right
      exact ⟨e, rfl⟩

end Amap

namespace Amap

def okStatusResponse : Json := Json.obj [("status", .str "1".data)]

/-- The gateway state after `k` successful same-day calls (clock fixed at
`quotaEnvDay1.now = 5`) on a single path. -/
def quotaState (path : String) (k : Nat) : PState :=
  { key := [], last_request_time := 5, request_count := k,
    quota_date := some "2025-01-01", quota_counter := [(path, k)],
    district_name_cache := [] }

/-- The state after a further call whose quota check failed: the counter
is charged but `_rate_limit` never runs. -/
def counterBumped (path : String) (k : Nat) : PState :=
  { quotaState path k with quota_counter := [(path, k + 1)] }

/-- The error the caller of `_make_request` sees when the day's quota is
exhausted: the quota `AmapError("10003", ...)` re-wrapped by the blanket
`except Exception` clause. -/
def quotaWrappedErr : PyExc :=
  .amap (.str "30000".data) (.str "请求失败: 错误码 10003: 超出日配额限制".data)

theorem check_quota_at (path : String) (k : Nat) :
    check_quota quotaEnvDay1 path (quotaState path k) =
      (.ok (decide (k + 1 ≤ if "/v3/place".data.isPrefixOf path.data then 100 else 5000)),
       counterBumped path k) := by
  unfold check_quota counterBumped quotaEnvDay1
  simp [List.lookup, setAssoc, quotaState]

end Amap

namespace Amap

theorem quota_step_ok (path : String) (Q k : Nat)
    (hq : (if "/v3/place".data.isPrefixOf path.data then (100 : Nat) else 5000) = Q)
    (hk : k + 1 ≤ Q) :
    make_request quotaEnvDay1 path [] (quotaState path k) =
      (.ok okStatusResponse, quotaState path (k + 1)) := by
  have h1 : check_quota quotaEnvDay1 path (quotaState path k) =
      (.ok true, counterBumped path k) := by
    rw [check_quota_at, hq, decide_eq_true hk]
  unfold make_request
  rw [PyM.run_catch, PyM.run_bind, h1]
  rfl

theorem quota_step_fail (path : String) (Q k : Nat)
    (hq : (if "/v3/place".data.isPrefixOf path.data then (100 : Nat) else 5000) = Q)
    (hk : ¬(k + 1 ≤ Q)) :
    make_request quotaEnvDay1 path [] (quotaState path k) =
      (.error quotaWrappedErr, counterBumped path k) := by
  have h1 : check_quota quotaEnvDay1 path (quotaState path k) =
      (.ok false, counterBumped path k) := by
    rw [check_quota_at, hq, decide_eq_false hk]
  unfold make_request
  rw [PyM.run_catch, PyM.run_bind, h1]
  rfl

theorem quota_start (path : String) (Q : Nat)
    (hq : (if "/v3/place".data.isPrefixOf path.data then (100 : Nat) else 5000) = Q)
    (h1Q : 1 ≤ Q) :
    make_request quotaEnvDay1 path [] initState =
      (.ok okStatusResponse, quotaState path 1) := by
  have h1 : check_quota quotaEnvDay1 path initState =
      (.ok (decide (1 ≤ if "/v3/place".data.isPrefixOf path.data then 100 else 5000)),
       { initState with quota_date := some "2025-01-01",
                        quota_counter := [(path, 1)] }) := by
    unfold check_quota quotaEnvDay1
    simp [List.lookup, setAssoc, initState]
  rw [hq, decide_eq_true h1Q] at h1
  unfold make_request
  rw [PyM.run_catch, PyM.run_bind, h1]
  rfl

theorem quota_iter (path : String) (Q : Nat)
    (hq : (if "/v3/place".data.isPrefixOf path.data then (100 : Nat) else 5000) = Q) :
    ∀ (m j : Nat), 1 ≤ m → j + m ≤ Q →
      make_request_iter quotaEnvDay1 path m (quotaState path j) =
        (.ok okStatusResponse, quotaState path (j + m)) := by
  intro m
  induction m with
  | zero => intro j h1 _; cases h1
  | succ m ih =>
      intro j _ hle
      cases m with
      | zero =>
          show make_request quotaEnvDay1 path [] (quotaState path j) = _
          exact quota_step_ok path Q j hq (by omega)
      | succ m' =>
          show make_request_iter quotaEnvDay1 path (m' + 1)
              (make_request quotaEnvDay1 path [] (quotaState path j)).2 = _
          rw [quota_step_ok path Q j hq (by omega)]
          have := ih (j + 1) (by omega) (by omega)
          rw [this]
          have harith : j + 1 + (m' + 1) = j + (m' + 1 + 1) := by omega
          rw [harith]

/-- C3: within one simulated day, calls 1..100 on the POI-search path
`/v3/place/text` succeed and the 101st fails; on a non-POI path the limit
is 5000 (call 5000 succeeds, call 5001 fails); a failing call still
charges the counter (it reads 101); after the observed date changes the
counter resets and the next call succeeds with the counter back at 1.
However, the error the caller receives is NOT the quota
`AmapError("10003", "超出日配额限制")` the claim describes: the blanket
`except Exception` clause of `_make_request` re-wraps it as
`AmapError("30000", "请求失败: 错误码 10003: 超出日配额限制")`. -/
theorem claim_C3 :
    make_request quotaEnvDay1 "/v3/place/text" [] initState =
      (.ok okStatusResponse, quotaState "/v3/place/text" 1) ∧
    make_request_iter quotaEnvDay1 "/v3/place/text" 99 (quotaState "/v3/place/text" 1) =
      (.ok okStatusResponse, quotaState "/v3/place/text" 100) ∧
    make_request quotaEnvDay1 "/v3/place/text" [] (quotaState "/v3/place/text" 100) =
      (.error quotaWrappedErr, counterBumped "/v3/place/text" 100) ∧
    (counterBumped "/v3/place/text" 100).quota_counter = [("/v3/place/text", 101)] ∧
    quotaWrappedErr ≠ .amap (.str "10003".data) (.str "超出日配额限制".data) ∧
    (make_request quotaEnvDay2 "/v3/place/text" []
      (counterBumped "/v3/place/text" 100)).1 = .ok okStatusResponse ∧
    (make_request quotaEnvDay2 "/v3/place/text" []
      (counterBumped "/v3/place/text" 100)).2.quota_counter = [("/v3/place/text", 1)] ∧
    make_request quotaEnvDay1 "/v3/ip" [] initState =
      (.ok okStatusResponse, quotaState "/v3/ip" 1) ∧
    make_request_iter quotaEnvDay1 "/v3/ip" 4999 (quotaState "/v3/ip" 1) =
      (.ok okStatusResponse, quotaState "/v3/ip" 5000) ∧
    make_request quotaEnvDay1 "/v3/ip" [] (quotaState "/v3/ip" 5000) =
      (.error quotaWrappedErr, counterBumped "/v3/ip" 5000) := by
  have hqPlace : (if "/v3/place".data.isPrefixOf "/v3/place/text".data
      then (100 : Nat) else 5000) = 100 := by decide
  have hqIp : (if "/v3/place".data.isPrefixOf "/v3/ip".data
      then (100 : Nat) else 5000) = 5000 := by decide
  refine ⟨quota_start "/v3/place/text" 100 hqPlace (by omega),
    quota_iter "/v3/place/text" 100 hqPlace 99 1 (by omega) (by omega),
    quota_step_fail "/v3/place/text" 100 100 hqPlace (by omega),
    by decide, by decide, by decide, by decide,
    quota_start "/v3/ip" 5000 hqIp (by omega),
    quota_iter "/v3/ip" 5000 hqIp 4999 1 (by omega) (by omega),
    quota_step_fail "/v3/ip" 5000 5000 hqIp (by omega)⟩

end Amap

namespace Amap

/-- `parse_address` never raises: its outermost `try/except` returns the
empty record on any exception, and every normal return is a component
dictionary with the canonical keys. -/
theorem parse_address_total (env : Env) (a : List Char)
    (coords sys : Option (List Char)) :
    TotalOk (parse_address env a coords sys) KeysP := by
  unfold parse_address
  apply totalOk_catch_of_postOk
  · have h := parse_address_keys env a coords sys
    unfold parse_address at h
    exact h
  · intro e
    exact totalOk_pure keysOf_empty

/-- C1: for every oracle, clock, gateway state and input (address text,
optional coordinates and coordinate system), `parse_address` — and hence
`complete_address`, which passes no coordinates — returns a dictionary
containing exactly the nine string component keys plus `weather`, and
never lets an inner exception escape.  Second conjunct: when every
network request fails, the call degrades to the all-empty record. -/
theorem claim_C1 :
    (∀ (env : Env) (s : PState) (a : List Char) (c cs : Option (List Char)),
      ∃ l s', parse_address env a c cs s = (.ok (Json.obj l), s') ∧ keysOf l = KEYS) ∧
    (complete_address failAllEnv
      "北京市海淀区中关村大街5号 张先生 13812345678".data initState).1 =
      .ok empty_components := by
  constructor
  · intro env s a c cs
    obtain ⟨j, s', hrun, hk⟩ := totalOk_elim (parse_address_total env a c cs) s
    obtain ⟨l, rfl, hkeys⟩ := hk
    exact ⟨l, s', hrun, hkeys⟩
  · decide

end Amap

namespace Amap

/-- C9: whenever `parse_address` resolves through the coordinate
(reverse-geocode) branch — coordinates supplied, no differing coordinate
system declared, the reverse-geocode response carrying a success status
and a truthy `regeocode` — the `weather` entry of the returned record is
`None`: the weather fetched by the address component's adcode is bound to
the local `weather_info` and never assigned into the returned components
(and every error path inside the branch degrades to the empty record,
whose `weather` is also `None`). -/
theorem claim_C9 (env : Env) (s : PState) (addr coords : List Char) (rr rg : Json)
    (hc : coords ≠ [])
    (hor : ∀ key : List Char, env.oracle "/v3/geocode/regeo"
      [("location", .str coords), ("key", .str key),
       ("extensions", .str "all".data), ("output", .str "json".data)] = .ok rr)
    (hst : pyGet rr "status" = .ok (.str "1".data))
    (hrg : pyGet rr "regeocode" = .ok rg)
    (hrt : truthy rg = true)
    (hitem : pyItem rr "regeocode" = .ok rg) :
    ∃ l s', parse_address env addr (some coords) none s = (.ok (Json.obj l), s') ∧
      l.lookup "weather" = some Json.null := by
  have hie : coords.isEmpty = false := by
    cases coords with
    | nil => exact absurd rfl hc
    | cons c cl => rfl
  unfold parse_address
  rcases hcl : clean_address_string env addr s with ⟨rc, s₁⟩
  simp only [PyM.run_catch, PyM.run_bind, hcl]
  cases rc with
  | error e => exact ⟨_, s₁, rfl, rfl⟩
  | ok cl =>
      have htr : truthy (Json.str coords) = true := by simp [truthy, hie]
      have hpe : pyEqStr (Json.str "1".data) "1".data = true := by decide
      simp only [hie, Bool.not_false, reduceIte, PyM.run_pure, htr, regeo_code, hor,
        PyM.run_bind, PyM.run_lift, hst, hrg, hitem, hrt, hpe, Bool.and_self,
        Bool.true_and]
      rcases hT : coordinate_branch env addr rg s₁ with ⟨rT, sT⟩
      cases rT with
      | error e => exact ⟨_, sT, rfl, rfl⟩
      | ok j =>
          obtain ⟨l, rfl, hw⟩ := postOk_elim (coordinate_branch_weather env addr rg) hT
          exact ⟨l, sT, rfl, hw⟩

end Amap

namespace Amap

/-- The address-component breakdown of the witness reverse-geocode
response (municipality shape: empty `city` list). -/
def witnessAddressComponent : Json :=
  Json.obj
    [("province", .str "北京市".data), ("city", .arr []),
     ("district", .str "朝阳区".data), ("township", .str "建外街道".data),
     ("adcode", .str "110105".data)]

def witnessRegeoRecord : Json :=
  Json.obj [("addressComponent", witnessAddressComponent)]

def witnessRegeoResponse : Json :=
  Json.obj [("status", .str "1".data), ("regeocode", witnessRegeoRecord)]

/-- Weather data the provider would return; the parser fetches it in the
coordinate branch and then drops it. -/
def witnessWeatherResponse : Json :=
  Json.obj
    [("status", .str "1".data),
     ("lives", .arr [Json.obj
       [("weather", .str "晴".data), ("temperature", .str "25".data),
        ("winddirection", .str "东".data), ("windpower", .str "4".data),
        ("humidity", .str "40".data), ("reporttime", .str "2025-01-01 10:00:00".data)]])]

def witnessOracle : String → List (String × Json) → Except NetErr Json :=
  fun path _ =>
    if path == "/v3/geocode/regeo" then .ok witnessRegeoResponse
    else if path == "/v3/weather/weatherInfo" then .ok witnessWeatherResponse
    else .error (.other "unreachable".data)

def witnessEnv : Env := { oracle := witnessOracle, today := "2025-01-01", now := 8 }

/-- C9 witness: a concrete run through the coordinate branch — the
provider resolves the coordinates and would return weather data, yet the
returned record's `weather` is `None`. -/
theorem claim_C9_witness :
    ∃ l s', parse_address witnessEnv "国贸大厦501室".data
        (some "116.46,39.92".data) none initState = (.ok (Json.obj l), s') ∧
      List.lookup "weather" l = some Json.null :=
  claim_C9 witnessEnv initState "国贸大厦501室".data "116.46,39.92".data
    witnessRegeoResponse witnessRegeoRecord
    (by decide) (fun _ => rfl) (by decide) (by decide) (by decide) (by decide)

end Amap

namespace Amap

/-- C2 counterexample: `_clean_address_string` is not idempotent.  On
"北京北京北京" the municipality-duplicate pattern rewrites the first two
repetitions, leaving "北京市北京", which a second application collapses
further to "北京市". -/
theorem claim_C2_counterexample :
    (clean_address_string failAllEnv "北京北京北京".data initState).1 =
      .ok "北京市北京".data ∧
    (clean_address_string failAllEnv "北京市北京".data initState).1 =
      .ok "北京市".data ∧
    ("北京市".data : List Char) ≠ "北京市北京".data := by
  refine ⟨by decide, by decide, by decide⟩

/-- Characters that can trigger one of the cleaning rewrites: the four
municipality-name initials, the administrative suffixes, and the road
suffixes. -/
def cleanTriggerChars : List Char :=
  ['北', '上', '天', '重', '省', '市', '区', '县', '街', '道', '路']

/-- A character none of the cleaning rewrites can act on or around. -/
def cleanInert (c : Char) : Bool :=
  !isPyWs c && !cleanTriggerChars.contains c

theorem firstSome_eq_none {α β : Type} {f : α → Option β} :
    ∀ {l : List α}, (∀ a ∈ l, f a = none) → firstSome f l = none
  | [], _ => rfl
  | x :: xs, h => by
      have hx := h x (List.mem_cons_self x xs)
      simp only [firstSome, hx]
      exact firstSome_eq_none fun a ha => h a (List.mem_cons_of_mem x ha)

theorem scanSub_eq_self {m : List Char → Option (List Char × List Char)} :
    ∀ (fuel : Nat) (s : List Char), (∀ t, t <:+ s → m t = none) →
      scanSub m fuel s = s := by
  intro fuel
  induction fuel with
  | zero => intro s _; rfl
  | succ fuel ih =>
      intro s h
      cases s with
      | nil => rfl
      | cons c rest =>
          have hm := h (c :: rest) (List.suffix_refl _)
          have hrest := ih rest fun t ht => h t (ht.trans (List.suffix_cons c rest))
          simp only [scanSub, hm, hrest]

theorem prefix_head_mem {a : Char} {u l : List Char}
    (h : (a :: u).isPrefixOf l = true) : a ∈ l := by
  cases l with
  | nil => simp [List.isPrefixOf] at h
  | cons b bs =>
      simp only [List.isPrefixOf, Bool.and_eq_true, beq_iff_eq] at h
      exact h.1 ▸ List.mem_cons_self b bs

theorem collapseRuns_eq_self {p : Char → Bool} {rep : Char} :
    ∀ {s : List Char}, (∀ c ∈ s, p c = false) → ∀ b, collapseRuns p rep b s = s
  | [], _, _ => rfl
  | c :: rest, h, b => by
      have hc := h c (List.mem_cons_self c rest)
      have ih := @collapseRuns_eq_self p rep rest
        (fun d hd => h d (List.mem_cons_of_mem c hd)) false
      simp [collapseRuns, hc, ih]

theorem muniMatchHere_none {c₁ c₂ : Char} {s : List Char} (h : c₁ ∉ s) :
    ∀ t, t <:+ s → muniMatchHere c₁ c₂ t = none := by
  intro t ht
  cases t with
  | nil => rfl
  | cons c rest =>
      have hcs : c ∈ s := ht.subset (List.mem_cons_self c rest)
      have hne : (c == c₁) = false := by
        refine beq_eq_false_iff_ne.mpr ?_
        intro he
        exact h (he ▸ hcs)
      simp only [muniMatchHere, hne]
      rfl

theorem subMuni_eq_self {c₁ c₂ : Char} {s : List Char} (h : c₁ ∉ s) :
    subMuni c₁ c₂ s = s :=
  scanSub_eq_self s.length s (muniMatchHere_none h)

theorem subAdminDup_eq_self :
    ∀ {s : List Char}, (∀ c ∈ s, adminSet.contains c = false) →
      ∀ last, subAdminDup last s = s
  | [], _, _ => rfl
  | c :: rest, h, last => by
      have hc := h c (List.mem_cons_self c rest)
      have ih := subAdminDup_eq_self (fun d hd => h d (List.mem_cons_of_mem c hd)) none
      simp only [subAdminDup]
      rw [if_neg (by simpa using hc), ih]

theorem roadDupMatchHere_none {s : List Char}
    (hJie : '街' ∉ s) (hDao : '道' ∉ s) (hLu : '路' ∉ s) :
    ∀ t, t <:+ s → roadDupMatchHere t = none := by
  intro t ht
  unfold roadDupMatchHere
  apply firstSome_eq_none
  intro n _
  apply firstSome_eq_none
  intro suf hsuf
  have hmem : ∀ (a : Char), a ∈ s → False → True := fun _ _ _ => trivial
  have hpf : ∀ (a : Char) (u : List Char), a ∉ s → suf = a :: u →
      suf.isPrefixOf (t.drop n) = false := by
    intro a u ha he
    subst he
    cases hp : (a :: u).isPrefixOf (t.drop n) with
    | false => rfl
    | true =>
        have h1 : a ∈ t.drop n := prefix_head_mem hp
        have h2 : a ∈ t := List.drop_subset n t h1
        exact absurd (ht.subset h2) ha
  have : suf = ['街', '道'] ∨ suf = ['路'] ∨ suf = ['街'] ∨ suf = ['道'] := by
    simpa [roadSuffixes] using hsuf
  rcases this with rfl | rfl | rfl | rfl
  · rw [hpf '街' ['道'] hJie rfl]; rfl
  · rw [hpf '路' [] hLu rfl]; rfl
  · rw [hpf '街' [] hJie rfl]; rfl
  · rw [hpf '道' [] hDao rfl]; rfl

theorem subRoadDup_eq_self {s : List Char}
    (hJie : '街' ∉ s) (hDao : '道' ∉ s) (hLu : '路' ∉ s) :
    subRoadDup s = s :=
  scanSub_eq_self s.length s (roadDupMatchHere_none hJie hDao hLu)

theorem dropWhile_eq_self {p : Char → Bool} {s : List Char}
    (h : ∀ c ∈ s, p c = false) : s.dropWhile p = s := by
  cases s with
  | nil => rfl
  | cons c rest =>
      have hc := h c (List.mem_cons_self c rest)
      simp [List.dropWhile, hc]

theorem pyStrip_eq_self {s : List Char} (h : ∀ c ∈ s, isPyWs c = false) :
    pyStrip s = s := by
  unfold pyStrip
  rw [dropWhile_eq_self h]
  rw [dropWhile_eq_self fun c hc => h c (List.mem_reverse.mp hc)]
  exact List.reverse_reverse s

theorem adminSpaceMatchHere_none {s : List Char}
    (h : ∀ c ∈ s, adminSet.contains c = false) :
    ∀ t, t <:+ s → adminSpaceMatchHere t = none := by
  intro t ht
  cases t with
  | nil => rfl
  | cons c rest =>
      have hc := h c (ht.subset (List.mem_cons_self c rest))
      simp only [adminSpaceMatchHere, hc]
      rfl

theorem subAdminSpace_eq_self {s : List Char}
    (h : ∀ c ∈ s, adminSet.contains c = false) :
    subAdminSpace s = s :=
  scanSub_eq_self s.length s (adminSpaceMatchHere_none h)

theorem pySplit_single :
    ∀ {s : List Char}, s ≠ [] → (∀ c ∈ s, isPyWs c = false) → pySplit s = [s]
  | [], hne, _ => absurd rfl hne
  | c :: rest, _, h => by
      have hc := h c (List.mem_cons_self c rest)
      cases rest with
      | nil => simp [pySplit, hc]
      | cons d rest' =>
          have hrest := pySplit_single (List.cons_ne_nil d rest')
            (fun e he => h e (List.mem_cons_of_mem c he))
          have hd := h d (List.mem_cons_of_mem c (List.mem_cons_self d rest'))
          show (if isPyWs c = true then _ else _) = _
          rw [if_neg (by simp [hc])]
          rw [hrest]
          simp [hd]

end Amap

namespace Amap

/-- On a string of clean-inert characters every rewriting stage of
`_clean_address_string` is the identity, so the function returns its
argument unchanged. -/
theorem cleanCore_fixed {s : List Char} (hne : s ≠ [])
    (h : ∀ c ∈ s, cleanInert c = true) : cleanCore s = s := by
  have h2 : ∀ c ∈ s, isPyWs c = false ∧ cleanTriggerChars.contains c = false := by
    intro c hc
    have hi := h c hc
    simpa [cleanInert, Bool.and_eq_true] using hi
  have hws : ∀ c ∈ s, isPyWs c = false := fun c hc => (h2 c hc).1
  have htr : ∀ c ∈ s, cleanTriggerChars.contains c = false := fun c hc => (h2 c hc).2
  have hnot : ∀ c : Char, cleanTriggerChars.contains c = true → c ∉ s := by
    intro c hmem hs
    rw [htr c hs] at hmem
    exact Bool.false_ne_true hmem
  have hB : '北' ∉ s := hnot _ (by decide)
  have hSh : '上' ∉ s := hnot _ (by decide)
  have hTj : '天' ∉ s := hnot _ (by decide)
  have hCq : '重' ∉ s := hnot _ (by decide)
  have hJie : '街' ∉ s := hnot _ (by decide)
  have hDao : '道' ∉ s := hnot _ (by decide)
  have hLu : '路' ∉ s := hnot _ (by decide)
  have hadmin : ∀ c ∈ s, adminSet.contains c = false := by
    intro c hc
    cases hx : adminSet.contains c with
    | false => rfl
    | true =>
        exfalso
        have hmem : c ∈ adminSet := by simpa using hx
        have hd : c = '省' ∨ c = '市' ∨ c = '区' ∨ c = '县' := by
          simpa [adminSet] using hmem
        rcases hd with rfl | rfl | rfl | rfl <;>
          exact absurd (htr _ hc) (by decide)
  have hwsSet : ∀ c ∈ s, wsSpecialSet.contains c = false := by
    intro c hc
    cases hx : wsSpecialSet.contains c with
    | false => rfl
    | true =>
        exfalso
        have hmem : c ∈ wsSpecialSet := by simpa using hx
        have hd : c = '\r' ∨ c = '\n' ∨ c = '\t' ∨
            c = Char.ofNat 0x3000 ∨ c = Char.ofNat 0xa0 := by
          simpa [wsSpecialSet] using hmem
        rcases hd with rfl | rfl | rfl | rfl | rfl <;>
          exact absurd (hws _ hc) (by decide)
  have e1 : subWsSpecial s = s := collapseRuns_eq_self hwsSet false
  have e2 : subMuni '北' '京' s = s := subMuni_eq_self hB
  have e3 : subMuni '上' '海' s = s := subMuni_eq_self hSh
  have e4 : subMuni '天' '津' s = s := subMuni_eq_self hTj
  have e5 : subMuni '重' '庆' s = s := subMuni_eq_self hCq
  have e6 : subAdminDup none s = s := subAdminDup_eq_self hadmin none
  have e7 : subRoadDup s = s := subRoadDup_eq_self hJie hDao hLu
  have e8 : subSpaces s = s := collapseRuns_eq_self hws false
  have e9 : pyStrip s = s := pyStrip_eq_self hws
  have e10 : subAdminSpace s = s := subAdminSpace_eq_self hadmin
  have e11 : pySplit s = [s] := pySplit_single hne hws
  show joinSpace (dedupTokens [] (pySplit (subAdminSpace (pyStrip (subSpaces
    (subRoadDup (subAdminDup none (subMuni '重' '庆' (subMuni '天' '津'
      (subMuni '上' '海' (subMuni '北' '京' (subWsSpecial s)))))))))))) = s
  rw [e1, e2, e3, e4, e5, e6, e7, e8, e9, e10, e11]
  rfl

/-- C2: `_clean_address_string` is NOT idempotent for every input — a
second application can strictly shrink the result of the first (witness
the run on "北京北京北京" proved separately).  The amended property proved here: on every nonempty
input whose characters are all inert for the cleaning rewrites (not Python
whitespace and not one of 北上天重省市区县街道路), the cleaning pipeline
returns its argument unchanged — so restricted to such inputs the function
is idempotent, and `_clean_address_string` returns exactly its argument in
every environment and state. -/
theorem claim_C2 {s : List Char} (hne : s ≠ [])
    (h : ∀ c ∈ s, cleanInert c = true) :
    cleanCore s = s ∧ cleanCore (cleanCore s) = cleanCore s ∧
    ∀ env, PostOk (clean_address_string env s) (fun r => r = s) := by
  have hfix := cleanCore_fixed hne h
  refine ⟨hfix, by rw [hfix]; exact hfix, fun env => ?_⟩
  exact postOk_mono (clean_address_string_value env s)
    (fun r hr => hr.trans hfix)

/-- Concrete instance of the amended C2: the clean-inert address
"中关村5号楼" is a fixed point of the cleaning pipeline, hence the pipeline
is idempotent at it. -/
theorem claim_C2_witness :
    cleanCore "中关村5号楼".data = "中关村5号楼".data ∧
    cleanCore (cleanCore "中关村5号楼".data) = cleanCore "中关村5号楼".data := by
  have h := claim_C2 (show ("中关村5号楼".data : List Char) ≠ [] from by decide)
    (by decide)
  exact ⟨h.1, h.2.1⟩

end Amap
